import Mathlib

/-!
# TempDisplay: display bring-up, blit and refresh (`Src/main.c`)

A shallow embedding of `Src/main.c`.  The program is a sequence of calls into
the vendor HAL / BSP.  Those libraries are external to `main.c`, so every
external call is recorded in a trace and its return status is taken from an
environment `Env`; the environment is universally quantified in the theorems.

Machine integers are `Nat` / `Int` with explicit reduction modulo `2 ^ 32`
where the C code converts to `uint32_t`.
-/

namespace TempDisplay

/-! ## Display configuration constants (`main.c`, lines 22-29) -/

def VSYNC : Nat := 1

def VBP : Nat := 1

def VFP : Nat := 1

def VACT : Nat := 480

def HSYNC : Nat := 1

def HBP : Nat := 1

def HFP : Nat := 1

def HACT : Nat := 800

/-! ## Symbolic constants of the HAL / BSP headers used by `main.c` -/

inductive HAL_StatusTypeDef where
  | HAL_OK
  | HAL_ERROR
  | HAL_BUSY
  | HAL_TIMEOUT
  deriving DecidableEq, Repr

inductive LCD_Status where
  | LCD_OK
  | LCD_ERROR
  | LCD_TIMEOUT
  deriving DecidableEq, Repr

inductive Peripheral where
  | NONE
  | DSI
  | LTDC
  | DMA2D
  deriving DecidableEq, Repr

inductive DMA2D_Mode where
  | DMA2D_M2M
  | DMA2D_M2M_PFC
  | DMA2D_M2M_BLEND
  | DMA2D_R2M
  deriving DecidableEq, Repr

inductive DMA2D_ColorMode where
  | DMA2D_ARGB8888
  | DMA2D_RGB888
  | DMA2D_RGB565
  deriving DecidableEq, Repr

inductive DMA2D_InputColorMode where
  | DMA2D_INPUT_ARGB8888
  | DMA2D_INPUT_RGB888
  | DMA2D_INPUT_RGB565
  deriving DecidableEq, Repr

inductive DMA2D_AlphaMode where
  | DMA2D_NO_MODIF_ALPHA
  | DMA2D_REPLACE_ALPHA
  | DMA2D_COMBINE_ALPHA
  deriving DecidableEq, Repr

inductive DSI_Lanes where
  | DSI_ONE_DATA_LANE
  | DSI_TWO_DATA_LANES
  deriving DecidableEq, Repr

inductive DSI_PLL_IDF where
  | DSI_PLL_IN_DIV1
  | DSI_PLL_IN_DIV2
  | DSI_PLL_IN_DIV5
  deriving DecidableEq, Repr

inductive DSI_PLL_ODF where
  | DSI_PLL_OUT_DIV1
  | DSI_PLL_OUT_DIV2
  deriving DecidableEq, Repr

inductive DSI_HSPolarity where
  | DSI_HSYNC_ACTIVE_HIGH
  | DSI_HSYNC_ACTIVE_LOW
  deriving DecidableEq, Repr

inductive DSI_VSPolarity where
  | DSI_VSYNC_ACTIVE_HIGH
  | DSI_VSYNC_ACTIVE_LOW
  deriving DecidableEq, Repr

inductive DSI_DEPolarity where
  | DSI_DATA_ENABLE_ACTIVE_HIGH
  | DSI_DATA_ENABLE_ACTIVE_LOW
  deriving DecidableEq, Repr

inductive DSI_ColorCoding where
  | DSI_RGB565
  | DSI_RGB666
  | DSI_RGB888
  deriving DecidableEq, Repr

inductive DSI_TESource where
  | DSI_TE_DSILINK
  | DSI_TE_EXTERNAL
  deriving DecidableEq, Repr

inductive DSI_TEPolarity where
  | DSI_TE_RISING_EDGE
  | DSI_TE_FALLING_EDGE
  deriving DecidableEq, Repr

inductive DSI_VSyncPol where
  | DSI_VSYNC_FALLING
  | DSI_VSYNC_RISING
  deriving DecidableEq, Repr

inductive DSI_AutomaticRefresh where
  | DSI_AR_DISABLE
  | DSI_AR_ENABLE
  deriving DecidableEq, Repr

inductive DSI_TEAcknowledge where
  | DSI_TE_ACKNOWLEDGE_DISABLE
  | DSI_TE_ACKNOWLEDGE_ENABLE
  deriving DecidableEq, Repr

/-- Value of one low-power command field: the `DSI_LP_<cat>_ENABLE` or the
`DSI_LP_<cat>_DISABLE` constant of the category of the field. -/
inductive LPState where
  | ENABLE
  | DISABLE
  deriving DecidableEq, Repr

def DSI_LP_GSW0P_ENABLE : LPState := .ENABLE
def DSI_LP_GSW0P_DISABLE : LPState := .DISABLE
def DSI_LP_GSW1P_ENABLE : LPState := .ENABLE
def DSI_LP_GSW1P_DISABLE : LPState := .DISABLE
def DSI_LP_GSW2P_ENABLE : LPState := .ENABLE
def DSI_LP_GSW2P_DISABLE : LPState := .DISABLE
def DSI_LP_GSR0P_ENABLE : LPState := .ENABLE
def DSI_LP_GSR0P_DISABLE : LPState := .DISABLE
def DSI_LP_GSR1P_ENABLE : LPState := .ENABLE
def DSI_LP_GSR1P_DISABLE : LPState := .DISABLE
def DSI_LP_GSR2P_ENABLE : LPState := .ENABLE
def DSI_LP_GSR2P_DISABLE : LPState := .DISABLE
def DSI_LP_GLW_ENABLE : LPState := .ENABLE
def DSI_LP_GLW_DISABLE : LPState := .DISABLE
def DSI_LP_DSW0P_ENABLE : LPState := .ENABLE
def DSI_LP_DSW0P_DISABLE : LPState := .DISABLE
def DSI_LP_DSW1P_ENABLE : LPState := .ENABLE
def DSI_LP_DSW1P_DISABLE : LPState := .DISABLE
def DSI_LP_DSR0P_ENABLE : LPState := .ENABLE
def DSI_LP_DSR0P_DISABLE : LPState := .DISABLE
def DSI_LP_DLW_ENABLE : LPState := .ENABLE
def DSI_LP_DLW_DISABLE : LPState := .DISABLE

inductive DSI_FlowControl where
  | DSI_FLOW_CONTROL_CRC_RX
  | DSI_FLOW_CONTROL_ECC_RX
  | DSI_FLOW_CONTROL_BTA
  | DSI_FLOW_CONTROL_EOTP_RX
  | DSI_FLOW_CONTROL_EOTP_TX
  deriving DecidableEq, Repr

inductive LTDC_HSPolarity where
  | LTDC_HSPOLARITY_AL
  | LTDC_HSPOLARITY_AH
  deriving DecidableEq, Repr

inductive LTDC_VSPolarity where
  | LTDC_VSPOLARITY_AL
  | LTDC_VSPOLARITY_AH
  deriving DecidableEq, Repr

inductive LTDC_DEPolarity where
  | LTDC_DEPOLARITY_AL
  | LTDC_DEPOLARITY_AH
  deriving DecidableEq, Repr

inductive LTDC_PCPolarity where
  | LTDC_PCPOLARITY_IPC
  | LTDC_PCPOLARITY_IIPC
  deriving DecidableEq, Repr

inductive RCC_PeriphClock where
  | RCC_PERIPHCLK_LTDC
  deriving DecidableEq, Repr

inductive RCC_PLLSAIDivR where
  | RCC_PLLSAIDIVR_2
  | RCC_PLLSAIDIVR_4
  | RCC_PLLSAIDIVR_8
  | RCC_PLLSAIDIVR_16
  deriving DecidableEq, Repr

inductive RCC_OscillatorType where
  | RCC_OSCILLATORTYPE_HSE
  | RCC_OSCILLATORTYPE_HSI
  deriving DecidableEq, Repr

inductive RCC_HSEState where
  | RCC_HSE_OFF
  | RCC_HSE_ON
  deriving DecidableEq, Repr

inductive RCC_PLLState where
  | RCC_PLL_OFF
  | RCC_PLL_ON
  deriving DecidableEq, Repr

inductive RCC_PLLSource where
  | RCC_PLLSOURCE_HSI
  | RCC_PLLSOURCE_HSE
  deriving DecidableEq, Repr

inductive RCC_PLLP where
  | RCC_PLLP_DIV2
  | RCC_PLLP_DIV4
  | RCC_PLLP_DIV6
  | RCC_PLLP_DIV8
  deriving DecidableEq, Repr

inductive RCC_ClockType where
  | RCC_CLOCKTYPE_SYSCLK
  | RCC_CLOCKTYPE_HCLK
  | RCC_CLOCKTYPE_PCLK1
  | RCC_CLOCKTYPE_PCLK2
  deriving DecidableEq, Repr

inductive RCC_SYSCLKSource where
  | RCC_SYSCLKSOURCE_HSI
  | RCC_SYSCLKSOURCE_HSE
  | RCC_SYSCLKSOURCE_PLLCLK
  deriving DecidableEq, Repr

inductive RCC_ClockDivider where
  | RCC_SYSCLK_DIV1
  | RCC_HCLK_DIV2
  | RCC_HCLK_DIV4
  deriving DecidableEq, Repr

inductive FLASH_Latency where
  | FLASH_LATENCY_5
  deriving DecidableEq, Repr

inductive Led where
  | LED3
  deriving DecidableEq, Repr

inductive PanelDriver where
  | NT35510
  | OTM8009A
  deriving DecidableEq, Repr

inductive PanelColorMode where
  | NT35510_FORMAT_RGB888
  | OTM8009A_COLMOD_RGB888
  deriving DecidableEq, Repr

inductive LCD_Orientation where
  | LCD_ORIENTATION_PORTRAIT
  | LCD_ORIENTATION_LANDSCAPE
  deriving DecidableEq, Repr

inductive Font where
  | Font24
  | Font16
  deriving DecidableEq, Repr

inductive LCD_Color where
  | LCD_COLOR_BLUE
  | LCD_COLOR_WHITE
  deriving DecidableEq, Repr

/-! ## Configuration structures (the fields `main.c` assigns) -/

structure RCC_PLLInitTypeDef where
  PLLState : RCC_PLLState
  PLLSource : RCC_PLLSource
  PLLM : Nat
  PLLN : Nat
  PLLP : RCC_PLLP
  PLLQ : Nat
  PLLR : Nat
  deriving DecidableEq, Repr

structure RCC_OscInitTypeDef where
  OscillatorType : RCC_OscillatorType
  HSEState : RCC_HSEState
  PLL : RCC_PLLInitTypeDef
  deriving DecidableEq, Repr

/-- The field `ClockType` is the bitwise or of the listed clock types. -/
structure RCC_ClkInitTypeDef where
  ClockType : List RCC_ClockType
  SYSCLKSource : RCC_SYSCLKSource
  AHBCLKDivider : RCC_ClockDivider
  APB1CLKDivider : RCC_ClockDivider
  APB2CLKDivider : RCC_ClockDivider
  deriving DecidableEq, Repr

structure RCC_PeriphCLKInitTypeDef where
  PeriphClockSelection : RCC_PeriphClock
  PLLSAIN : Nat
  PLLSAIR : Nat
  PLLSAIDivR : RCC_PLLSAIDivR
  deriving DecidableEq, Repr

structure DSI_PLLInitTypeDef where
  PLLNDIV : Nat
  PLLIDF : DSI_PLL_IDF
  PLLODF : DSI_PLL_ODF
  deriving DecidableEq, Repr

structure DSI_InitTypeDef where
  NumberOfLanes : DSI_Lanes
  TXEscapeCkdiv : Nat
  deriving DecidableEq, Repr

structure DSI_CmdCfgTypeDef where
  VirtualChannelID : Nat
  HSPolarity : DSI_HSPolarity
  VSPolarity : DSI_VSPolarity
  DEPolarity : DSI_DEPolarity
  ColorCoding : DSI_ColorCoding
  CommandSize : Nat
  TearingEffectSource : DSI_TESource
  TearingEffectPolarity : DSI_TEPolarity
  VSyncPol : DSI_VSyncPol
  AutomaticRefresh : DSI_AutomaticRefresh
  TEAcknowledgeRequest : DSI_TEAcknowledge
  deriving DecidableEq, Repr

structure DSI_LPCmdTypeDef where
  LPGenShortWriteNoP : LPState
  LPGenShortWriteOneP : LPState
  LPGenShortWriteTwoP : LPState
  LPGenShortReadNoP : LPState
  LPGenShortReadOneP : LPState
  LPGenShortReadTwoP : LPState
  LPGenLongWrite : LPState
  LPDcsShortWriteNoP : LPState
  LPDcsShortWriteOneP : LPState
  LPDcsShortReadNoP : LPState
  LPDcsLongWrite : LPState
  deriving DecidableEq, Repr

structure DSI_PHY_TimerTypeDef where
  ClockLaneHS2LPTime : Nat
  ClockLaneLP2HSTime : Nat
  DataLaneHS2LPTime : Nat
  DataLaneLP2HSTime : Nat
  DataLaneMaxReadTime : Nat
  StopWaitTime : Nat
  deriving DecidableEq, Repr

structure LTDC_ColorTypeDef where
  Blue : Nat
  Green : Nat
  Red : Nat
  deriving DecidableEq, Repr

structure LTDC_InitTypeDef where
  HorizontalSync : Nat
  VerticalSync : Nat
  AccumulatedHBP : Nat
  AccumulatedVBP : Nat
  AccumulatedActiveH : Nat
  AccumulatedActiveW : Nat
  TotalHeigh : Nat
  TotalWidth : Nat
  Backcolor : LTDC_ColorTypeDef
  HSPolarity : LTDC_HSPolarity
  VSPolarity : LTDC_VSPolarity
  DEPolarity : LTDC_DEPolarity
  PCPolarity : LTDC_PCPolarity
  deriving DecidableEq, Repr

structure LTDC_HandleTypeDef where
  Instance : Peripheral
  Init : LTDC_InitTypeDef
  deriving DecidableEq, Repr

structure DSI_HandleTypeDef where
  Instance : Peripheral
  Init : DSI_InitTypeDef
  deriving DecidableEq, Repr

structure DMA2D_InitTypeDef where
  Mode : DMA2D_Mode
  ColorMode : DMA2D_ColorMode
  OutputOffset : Nat
  deriving DecidableEq, Repr

structure DMA2D_LayerCfgTypeDef where
  InputOffset : Nat
  InputColorMode : DMA2D_InputColorMode
  AlphaMode : DMA2D_AlphaMode
  InputAlpha : Nat
  deriving DecidableEq, Repr

/-- The `hdma2d` handle.  `XferCpltCallbackSet` is `false` for a `NULL`
callback; `LayerCfg1` is `LayerCfg[1]`, the only layer `main.c` touches. -/
structure DMA2D_HandleTypeDef where
  Instance : Peripheral
  Init : DMA2D_InitTypeDef
  XferCpltCallbackSet : Bool
  LayerCfg1 : DMA2D_LayerCfgTypeDef
  deriving DecidableEq, Repr

/-! ## Calls into the HAL / BSP, and the trace -/

/-- One call into the vendor libraries, with the arguments `main.c` passes. -/
inductive Call where
  | HAL_Init
  | HAL_RCC_OscConfig (osc : RCC_OscInitTypeDef)
  | HAL_PWREx_EnableOverDrive
  | HAL_RCC_ClockConfig (clk : RCC_ClkInitTypeDef) (latency : FLASH_Latency)
  | BSP_SDRAM_Init
  | BSP_LED_On (led : Led)
  | BSP_LCD_Reset
  | BSP_LCD_MspInit
  | HAL_RCCEx_PeriphCLKConfig (clk : RCC_PeriphCLKInitTypeDef)
  | HAL_DSI_DeInit
  | HAL_DSI_Init (ini : DSI_InitTypeDef) (pll : DSI_PLLInitTypeDef)
  | HAL_DSI_ConfigAdaptedCommandMode (cfg : DSI_CmdCfgTypeDef)
  | HAL_DSI_ConfigCommand (lp : DSI_LPCmdTypeDef)
  | HAL_DSI_ConfigPhyTimer (t : DSI_PHY_TimerTypeDef)
  | HAL_LTDC_DeInit
  | HAL_LTDC_Init (ini : LTDC_InitTypeDef)
  | HAL_DSI_Start
  | Panel_Init (drv : PanelDriver) (colmod : PanelColorMode) (o : LCD_Orientation)
  | HAL_DSI_ConfigFlowControl (fc : DSI_FlowControl)
  | HAL_DSI_Refresh
  | BSP_LCD_LayerDefaultInit (layer : Nat) (addr : Nat)
  | BSP_LCD_SelectLayer (layer : Nat)
  | BSP_LCD_SetFont (f : Font)
  | BSP_LCD_SetTextColor (c : LCD_Color)
  | BSP_LCD_SetBackColor (c : LCD_Color)
  | BSP_LCD_FillRect (x y w h : Nat)
  | BSP_LCD_DisplayStringAtLine (line : Nat) (text : String)
  | HAL_DMA2D_Init (h : DMA2D_HandleTypeDef)
  | HAL_DMA2D_ConfigLayer (h : DMA2D_HandleTypeDef) (layer : Nat)
  | HAL_DMA2D_Start (src dst width height : Nat)
  | HAL_DMA2D_PollForTransfer (timeout : Nat)
  deriving DecidableEq, Repr

/-- A trace entry: the call, and the value `pending_buffer` had when the call
was made. -/
structure Event where
  call : Call
  pending : Int
  deriving DecidableEq, Repr

/-! ## Memory -/

/-- Memory as 32-bit words: `cell a` is the pixel stored at byte address `a`.
Pixel pointers are `uint32_t *`, so pixel addresses are multiples of 4 and
distinct addresses name disjoint words.  The list `writes` logs, oldest
first, the addresses the DMA2D engine has written. -/
structure Memory where
  cell : Nat → Nat
  writes : List Nat

def Memory.write (m : Memory) (a v : Nat) : Memory :=
  { cell := fun b => if b = a then v else m.cell b, writes := m.writes ++ [a] }

/-- Modelled from the spec: the DMA2D engine started by `HAL_DMA2D_Start`
(vendor HAL and hardware, not part of `main.c`), as the memory-to-memory
transfer of one line: `n` consecutive pixels are read from `src` and written
to `dst`, one pixel (4 bytes) at a time. -/
def dma2dLine (m : Memory) (src dst : Nat) : Nat → Memory
  | 0 => m
  | n + 1 => dma2dLine (m.write dst (m.cell src)) (src + 4) (dst + 4) n

/-- Modelled from the spec: the DMA2D memory-to-memory transfer (vendor HAL
and hardware, not part of `main.c`): `height` lines of `width` pixels; after
each line the source skips `inOff` pixels and the destination skips `outOff`
pixels. -/
def dma2dTransfer (width inOff outOff : Nat) (m : Memory) (src dst : Nat) : Nat → Memory
  | 0 => m
  | h + 1 =>
    dma2dTransfer width inOff outOff (dma2dLine m src dst width)
      (src + 4 * (width + inOff)) (dst + 4 * (width + outOff)) h

/-! ## Program state and environment -/

/-- The globals of `main.c` (`pending_buffer`, `hdma2d`), the two handles it
imports (`hltdc_eval`, `hdsi_eval`), memory, the error LED, and the trace. -/
structure State where
  pending_buffer : Int
  hdma2d : DMA2D_HandleTypeDef
  hltdc_eval : LTDC_HandleTypeDef
  hdsi_eval : DSI_HandleTypeDef
  mem : Memory
  led3 : Bool
  trace : List Event

/-- What the vendor libraries and the hardware do: `status n` is the status
returned by the call made when `n` calls are already in the trace;
`draw n` is what the BSP drawing routine called at that point (or a DMA2D
transfer found unfinished at that point) does to the pixels in memory. -/
structure Env where
  status : Nat → HAL_StatusTypeDef
  draw : Nat → (Nat → Nat) → (Nat → Nat)

/-- Outcome of running a piece of the program: it returns `a`, or it is stuck
for ever in a `while(1)` loop. -/
inductive Run (α : Type) where
  | ret (a : α) (s : State)
  | halt (s : State)

def Run.state {α : Type} : Run α → State
  | .ret _ s => s
  | .halt s => s

def Run.halted {α : Type} : Run α → Bool
  | .ret _ _ => false
  | .halt _ => true

def Prog (α : Type) : Type := Env → State → Run α

instance : Monad Prog where
  pure a := fun _ s => .ret a s
  bind m f := fun e s =>
    match m e s with
    | .ret a s1 => f a e s1
    | .halt s1 => .halt s1

def getState : Prog State := fun _ s => .ret s s

def modifyState (f : State → State) : Prog Unit := fun _ s => .ret () (f s)

/-- The empty endless loop `while(1)`: the program is stuck for ever. -/
def loopForever {α : Type} : Prog α := fun _ s => .halt s

/-- Modelled from the spec: a HAL / BSP routine (vendor code, not part of
`main.c`) other than the DMA2D transfer and the BSP drawing routines.  It
configures a peripheral and does not write pixel memory: the call is logged
and returns the status the environment gives. -/
def hal (c : Call) : Prog HAL_StatusTypeDef := fun e s =>
  .ret (e.status s.trace.length) { s with trace := s.trace ++ [⟨c, s.pending_buffer⟩] }

/-- Modelled from the spec: a BSP drawing routine (vendor code, not part of
`main.c`).  The call is logged and the pixels change as the environment says. -/
def bspDraw (c : Call) : Prog Unit := fun e s =>
  .ret () { s with
    mem := { s.mem with cell := e.draw s.trace.length s.mem.cell }
    trace := s.trace ++ [⟨c, s.pending_buffer⟩] }

/-! ## The program (`main.c`) -/

/-- Build-time configuration and link-time addresses that `main.c` takes from
headers: the board revision flags, `LCD_FB_START_ADDRESS` (the value of
`LAYER0_ADDRESS`) and the address of the array `image_320x240_argb8888`. -/
structure Config where
  USE_STM32469I_DISCO_REVA : Bool
  USE_STM32469I_DISCO_REVC : Bool
  LCD_FB_START_ADDRESS : Nat
  image_320x240_argb8888 : Nat

def LAYER0_ADDRESS (cfg : Config) : Nat := cfg.LCD_FB_START_ADDRESS

/-- Conversion of a C `int` value to `uint32_t`. -/
def toUInt32 (i : Int) : Nat := (i % 2 ^ 32).toNat

/-- When `condition` is non-zero: `BSP_LED_On(LED3)`, then the endless loop
`while(1)`. -/
def OnError_Handler (condition : Bool) : Prog Unit := do
  if condition then
    let _ ← hal (.BSP_LED_On .LED3)
    modifyState fun s => { s with led3 := true }
    loopForever

/-- Result of `ReadTemperature`: the `float` 28.0 converted to `int`. -/
def ReadTemperature : Int := 28

/-- The callback `HAL_DSI_EndOfRefreshCallback`; its argument `hdsi` is not used. -/
def HAL_DSI_EndOfRefreshCallback (s : State) : State :=
  if s.pending_buffer ≥ 0 then { s with pending_buffer := -1 } else s

/-- The structure `RCC_OscInitStruct` of `SystemClock_Config` (lines 127-135). -/
def RCC_OscInitStruct : RCC_OscInitTypeDef :=
  { OscillatorType := .RCC_OSCILLATORTYPE_HSE
    HSEState := .RCC_HSE_ON
    PLL := {
      PLLState := .RCC_PLL_ON
      PLLSource := .RCC_PLLSOURCE_HSE
      PLLM := 8
      PLLN := 360
      PLLP := .RCC_PLLP_DIV2
      PLLQ := 7
      PLLR := 6 } }

/-- The structure `RCC_ClkInitStruct` of `SystemClock_Config` (lines 149-153). -/
def RCC_ClkInitStruct : RCC_ClkInitTypeDef :=
  { ClockType := [.RCC_CLOCKTYPE_SYSCLK, .RCC_CLOCKTYPE_HCLK, .RCC_CLOCKTYPE_PCLK1,
      .RCC_CLOCKTYPE_PCLK2]
    SYSCLKSource := .RCC_SYSCLKSOURCE_PLLCLK
    AHBCLKDivider := .RCC_SYSCLK_DIV1
    APB1CLKDivider := .RCC_HCLK_DIV4
    APB2CLKDivider := .RCC_HCLK_DIV2 }

/-- Function `SystemClock_Config`.  The register macros
`__HAL_RCC_PWR_CLK_ENABLE` and `__HAL_PWR_VOLTAGESCALING_CONFIG` of lines
123-125 return no status and are not logged. -/
def SystemClock_Config : Prog Unit := do
  let ret ← hal (.HAL_RCC_OscConfig RCC_OscInitStruct)
  if ret ≠ .HAL_OK then
    loopForever
  let ret ← hal .HAL_PWREx_EnableOverDrive
  if ret ≠ .HAL_OK then
    loopForever
  let ret ← hal (.HAL_RCC_ClockConfig RCC_ClkInitStruct .FLASH_LATENCY_5)
  if ret ≠ .HAL_OK then
    loopForever

def LTDC_Init : Prog Unit := do
  modifyState fun s => { s with hltdc_eval := { s.hltdc_eval with Instance := .LTDC } }
  let _ ← hal .HAL_LTDC_DeInit
  modifyState fun s => { s with hltdc_eval := { s.hltdc_eval with
    Init := {
      HorizontalSync := HSYNC
      VerticalSync := VSYNC
      AccumulatedHBP := HSYNC + HBP
      AccumulatedVBP := VSYNC + VBP
      AccumulatedActiveH := VSYNC + VBP + VACT
      AccumulatedActiveW := HSYNC + HBP + HACT
      TotalHeigh := VSYNC + VBP + VACT + VFP
      TotalWidth := HSYNC + HBP + HACT + HFP
      Backcolor := { Blue := 0, Green := 0, Red := 0 }
      HSPolarity := .LTDC_HSPOLARITY_AL
      VSPolarity := .LTDC_VSPOLARITY_AL
      DEPolarity := .LTDC_DEPOLARITY_AL
      PCPolarity := .LTDC_PCPOLARITY_IPC }
    Instance := .LTDC } }
  let s ← getState
  let _ ← hal (.HAL_LTDC_Init s.hltdc_eval.Init)

/-- The low-power command configuration of lines 210-220. -/
def LPCmd_enable : DSI_LPCmdTypeDef :=
  { LPGenShortWriteNoP := DSI_LP_GSW0P_ENABLE
    LPGenShortWriteOneP := DSI_LP_GSW1P_ENABLE
    LPGenShortWriteTwoP := DSI_LP_GSW2P_ENABLE
    LPGenShortReadNoP := DSI_LP_GSR0P_ENABLE
    LPGenShortReadOneP := DSI_LP_GSR1P_ENABLE
    LPGenShortReadTwoP := DSI_LP_GSR2P_ENABLE
    LPGenLongWrite := DSI_LP_GLW_ENABLE
    LPDcsShortWriteNoP := DSI_LP_DSW0P_ENABLE
    LPDcsShortWriteOneP := DSI_LP_DSW1P_ENABLE
    LPDcsShortReadNoP := DSI_LP_DSR0P_ENABLE
    LPDcsLongWrite := DSI_LP_DLW_ENABLE }

/-- The low-power command configuration of lines 241-251, assigned over the
earlier one. -/
def LPCmd_disable (LPCmd : DSI_LPCmdTypeDef) : DSI_LPCmdTypeDef :=
  { LPCmd with
    LPGenShortWriteNoP := DSI_LP_GSW0P_DISABLE
    LPGenShortWriteOneP := DSI_LP_GSW1P_DISABLE
    LPGenShortWriteTwoP := DSI_LP_GSW2P_DISABLE
    LPGenShortReadNoP := DSI_LP_GSR0P_DISABLE
    LPGenShortReadOneP := DSI_LP_GSR1P_DISABLE
    LPGenShortReadTwoP := DSI_LP_GSR2P_DISABLE
    LPGenLongWrite := DSI_LP_GLW_DISABLE
    LPDcsShortWriteNoP := DSI_LP_DSW0P_DISABLE
    LPDcsShortWriteOneP := DSI_LP_DSW1P_DISABLE
    LPDcsShortReadNoP := DSI_LP_DSR0P_DISABLE
    LPDcsLongWrite := DSI_LP_DLW_DISABLE }

def LCD_Init (cfg : Config) : Prog LCD_Status := do
  let _ ← hal .BSP_LCD_Reset
  let _ ← hal .BSP_LCD_MspInit
  let PeriphClkInitStruct : RCC_PeriphCLKInitTypeDef :=
    { PeriphClockSelection := .RCC_PERIPHCLK_LTDC
      PLLSAIN := 417
      PLLSAIR := 5
      PLLSAIDivR := .RCC_PLLSAIDIVR_2 }
  let _ ← hal (.HAL_RCCEx_PeriphCLKConfig PeriphClkInitStruct)
  modifyState fun s => { s with hdsi_eval := { s.hdsi_eval with Instance := .DSI } }
  let _ ← hal .HAL_DSI_DeInit
  let dsiPllInit : DSI_PLLInitTypeDef :=
    if cfg.USE_STM32469I_DISCO_REVA then
      { PLLNDIV := 100, PLLIDF := .DSI_PLL_IN_DIV5, PLLODF := .DSI_PLL_OUT_DIV1 }
    else
      { PLLNDIV := 125, PLLIDF := .DSI_PLL_IN_DIV2, PLLODF := .DSI_PLL_OUT_DIV1 }
  modifyState fun s => { s with hdsi_eval := { s.hdsi_eval with
    Init := { NumberOfLanes := .DSI_TWO_DATA_LANES, TXEscapeCkdiv := 0x4 } } }
  let s ← getState
  let _ ← hal (.HAL_DSI_Init s.hdsi_eval.Init dsiPllInit)
  let CmdCfg : DSI_CmdCfgTypeDef :=
    { VirtualChannelID := 0
      HSPolarity := .DSI_HSYNC_ACTIVE_HIGH
      VSPolarity := .DSI_VSYNC_ACTIVE_HIGH
      DEPolarity := .DSI_DATA_ENABLE_ACTIVE_HIGH
      ColorCoding := .DSI_RGB888
      CommandSize := HACT
      TearingEffectSource := .DSI_TE_DSILINK
      TearingEffectPolarity := .DSI_TE_RISING_EDGE
      VSyncPol := .DSI_VSYNC_FALLING
      AutomaticRefresh := .DSI_AR_DISABLE
      TEAcknowledgeRequest := .DSI_TE_ACKNOWLEDGE_ENABLE }
  let _ ← hal (.HAL_DSI_ConfigAdaptedCommandMode CmdCfg)
  let LPCmd := LPCmd_enable
  let _ ← hal (.HAL_DSI_ConfigCommand LPCmd)
  let PhyTimings : DSI_PHY_TimerTypeDef :=
    { ClockLaneHS2LPTime := 35
      ClockLaneLP2HSTime := 35
      DataLaneHS2LPTime := 35
      DataLaneLP2HSTime := 35
      DataLaneMaxReadTime := 0
      StopWaitTime := 10 }
  let _ ← hal (.HAL_DSI_ConfigPhyTimer PhyTimings)
  LTDC_Init
  let _ ← hal .HAL_DSI_Start
  if cfg.USE_STM32469I_DISCO_REVC then
    let _ ← hal (.Panel_Init .NT35510 .NT35510_FORMAT_RGB888 .LCD_ORIENTATION_LANDSCAPE)
  else
    let _ ← hal (.Panel_Init .OTM8009A .OTM8009A_COLMOD_RGB888 .LCD_ORIENTATION_LANDSCAPE)
  let LPCmd := LPCmd_disable LPCmd
  let _ ← hal (.HAL_DSI_ConfigCommand LPCmd)
  let _ ← hal (.HAL_DSI_ConfigFlowControl .DSI_FLOW_CONTROL_BTA)
  let _ ← hal .HAL_DSI_Refresh
  return .LCD_OK

def LCD_BriefDisplay : Prog Unit := do
  let tempRead := ReadTemperature
  let _ ← hal (.BSP_LCD_SetFont .Font24)
  let _ ← hal (.BSP_LCD_SetTextColor .LCD_COLOR_BLUE)
  bspDraw (.BSP_LCD_FillRect 0 0 800 112)
  let _ ← hal (.BSP_LCD_SetTextColor .LCD_COLOR_WHITE)
  bspDraw (.BSP_LCD_FillRect 0 112 800 368)
  let _ ← hal (.BSP_LCD_SetBackColor .LCD_COLOR_BLUE)
  bspDraw (.BSP_LCD_DisplayStringAtLine 1 "      Room temperature")
  let _ ← hal (.BSP_LCD_SetFont .Font16)
  bspDraw (.BSP_LCD_DisplayStringAtLine 4 "      This shows the temperature in the house ")
  bspDraw (.BSP_LCD_DisplayStringAtLine 5 "      This is a proof of concept     ")
  let tempString := "The temperature is: " ++ toString tempRead
  bspDraw (.BSP_LCD_DisplayStringAtLine 10 tempString)

/-- The call `HAL_DMA2D_Init(&hdma2d)`. -/
def HAL_DMA2D_Init : Prog HAL_StatusTypeDef := do
  let s ← getState
  hal (.HAL_DMA2D_Init s.hdma2d)

/-- The call `HAL_DMA2D_ConfigLayer(&hdma2d, LayerIdx)`. -/
def HAL_DMA2D_ConfigLayer (LayerIdx : Nat) : Prog HAL_StatusTypeDef := do
  let s ← getState
  hal (.HAL_DMA2D_ConfigLayer s.hdma2d LayerIdx)

/-- Modelled from the spec: `HAL_DMA2D_Start` (vendor HAL, not part of
`main.c`).  The call is logged and returns the status the environment gives;
when that status is `HAL_OK` the engine performs the memory-to-memory
transfer `dma2dTransfer` with the input offset of layer 1 and the output
offset of the handle. -/
def HAL_DMA2D_Start (pdata DstAddress Width Height : Nat) : Prog HAL_StatusTypeDef := fun e s =>
  let st := e.status s.trace.length
  let s1 : State :=
    { s with trace := s.trace ++ [⟨.HAL_DMA2D_Start pdata DstAddress Width Height, s.pending_buffer⟩] }
  if st = .HAL_OK then
    .ret st { s1 with
      mem := dma2dTransfer Width s.hdma2d.LayerCfg1.InputOffset s.hdma2d.Init.OutputOffset
        s.mem pdata DstAddress Height }
  else
    .ret st s1

/-- Modelled from the spec: `HAL_DMA2D_PollForTransfer` (vendor HAL, not part
of `main.c`).  The call is logged and returns the status the environment
gives; a status other than `HAL_OK` (time-out or transfer error) means the
transfer did not run to completion, and the pixels are then whatever the
environment says. -/
def HAL_DMA2D_PollForTransfer (Timeout : Nat) : Prog HAL_StatusTypeDef := fun e s =>
  let st := e.status s.trace.length
  let s1 : State :=
    { s with trace := s.trace ++ [⟨.HAL_DMA2D_PollForTransfer Timeout, s.pending_buffer⟩] }
  if st = .HAL_OK then
    .ret st s1
  else
    .ret st { s1 with mem := { s.mem with cell := e.draw s.trace.length s.mem.cell } }

/-- The `int` expression `(y * 800 + x) * 4` of line 307 (`x`, `y` promoted
from `uint16_t`), as a mathematical integer. -/
def destinationOffset (x y : Nat) : Int := ((y : Int) * 800 + (x : Int)) * 4

/-- The `uint32_t` value of `(uint32_t)pDst + (y * 800 + x) * 4` (line 307):
the offset is computed in `int` and converted to `uint32_t` for the sum. -/
def destination (pDst x y : Nat) : Nat :=
  (pDst + toUInt32 (destinationOffset x y)) % 2 ^ 32

/-- Function `CopyBuffer`; `x`, `y`, `xsize`, `ysize` are `uint16_t` values and `pSrc`,
`pDst` are 32-bit addresses. -/
def CopyBuffer (pSrc pDst x y xsize ysize : Nat) : Prog Unit := do
  let destination := destination pDst x y
  let source := pSrc
  modifyState fun s => { s with hdma2d := { s.hdma2d with
    Init := {
      Mode := .DMA2D_M2M
      ColorMode := .DMA2D_ARGB8888
      OutputOffset := toUInt32 (800 - (xsize : Int)) }
    XferCpltCallbackSet := false
    LayerCfg1 := {
      AlphaMode := .DMA2D_NO_MODIF_ALPHA
      InputAlpha := 0xFF
      InputColorMode := .DMA2D_INPUT_ARGB8888
      InputOffset := 0 }
    Instance := .DMA2D } }
  if (← HAL_DMA2D_Init) = .HAL_OK then
    if (← HAL_DMA2D_ConfigLayer 1) = .HAL_OK then
      if (← HAL_DMA2D_Start source destination xsize ysize) = .HAL_OK then
        let _ ← HAL_DMA2D_PollForTransfer 100

/-- Lines 79-82 of `main`: the blit, `pending_buffer = 0`, and the refresh. -/
def main_blit (cfg : Config) : Prog Unit := do
  CopyBuffer cfg.image_320x240_argb8888 (LAYER0_ADDRESS cfg) 240 160 320 240
  modifyState fun s => { s with pending_buffer := 0 }
  let _ ← hal .HAL_DSI_Refresh

/-- Function `main`, up to the entry of its final `while (1)` loop. -/
def main (cfg : Config) : Prog Unit := do
  let _ ← hal .HAL_Init
  SystemClock_Config
  let _ ← hal .BSP_SDRAM_Init
  let lcd_status ← LCD_Init cfg
  OnError_Handler (lcd_status != .LCD_OK)
  let _ ← hal (.BSP_LCD_LayerDefaultInit 0 (LAYER0_ADDRESS cfg))
  let _ ← hal (.BSP_LCD_SelectLayer 0)
  LCD_BriefDisplay
  main_blit cfg

/-- State at reset: `pending_buffer = -1` (line 33), zero-initialised handles,
LED off, nothing called yet. -/
def State.reset (cell : Nat → Nat) : State :=
  { pending_buffer := -1
    hdma2d := {
      Instance := .NONE
      Init := { Mode := .DMA2D_M2M, ColorMode := .DMA2D_ARGB8888, OutputOffset := 0 }
      XferCpltCallbackSet := false
      LayerCfg1 := {
        InputOffset := 0
        InputColorMode := .DMA2D_INPUT_ARGB8888
        AlphaMode := .DMA2D_NO_MODIF_ALPHA
        InputAlpha := 0 } }
    hltdc_eval := {
      Instance := .NONE
      Init := {
        HorizontalSync := 0
        VerticalSync := 0
        AccumulatedHBP := 0
        AccumulatedVBP := 0
        AccumulatedActiveH := 0
        AccumulatedActiveW := 0
        TotalHeigh := 0
        TotalWidth := 0
        Backcolor := { Blue := 0, Green := 0, Red := 0 }
        HSPolarity := .LTDC_HSPOLARITY_AL
        VSPolarity := .LTDC_VSPOLARITY_AL
        DEPolarity := .LTDC_DEPOLARITY_AL
        PCPolarity := .LTDC_PCPOLARITY_IPC } }
    hdsi_eval := {
      Instance := .NONE
      Init := { NumberOfLanes := .DSI_ONE_DATA_LANE, TXEscapeCkdiv := 0 } }
    mem := { cell := cell, writes := [] }
    led3 := false
    trace := [] }

/-! ## Specification-side definitions -/

/-- Byte address of framebuffer pixel (row `r`, column `c`), for a framebuffer
of width 800 at `base`. -/
def pixelAddr (base r c : Nat) : Nat := base + 4 * (r * 800 + c)

/-- The pixels (row, column) of the rectangle with corner `(x, y)` and size
`xsize × ysize`, row by row. -/
def rectPixels (x y xsize ysize : Nat) : List (Nat × Nat) :=
  (List.range ysize).flatMap fun i => (List.range xsize).map fun j => (y + i, x + j)

/-- The handle `hdma2d` as `CopyBuffer` fills it in (lines 310-321). -/
def CopyBuffer_hdma2d (xsize : Nat) : DMA2D_HandleTypeDef :=
  { Instance := .DMA2D
    Init := {
      Mode := .DMA2D_M2M
      ColorMode := .DMA2D_ARGB8888
      OutputOffset := toUInt32 (800 - (xsize : Int)) }
    XferCpltCallbackSet := false
    LayerCfg1 := {
      InputOffset := 0
      InputColorMode := .DMA2D_INPUT_ARGB8888
      AlphaMode := .DMA2D_NO_MODIF_ALPHA
      InputAlpha := 0xFF } }

/-- The calls `CopyBuffer` makes, given the statuses of its first three calls. -/
def CopyBuffer_calls (pSrc pDst x y xsize ysize : Nat) (st0 st1 st2 : HAL_StatusTypeDef) :
    List Call :=
  [.HAL_DMA2D_Init (CopyBuffer_hdma2d xsize)] ++
  (if st0 = .HAL_OK then
    [.HAL_DMA2D_ConfigLayer (CopyBuffer_hdma2d xsize) 1] ++
    (if st1 = .HAL_OK then
      [.HAL_DMA2D_Start pSrc (destination pDst x y) xsize ysize] ++
      (if st2 = .HAL_OK then [.HAL_DMA2D_PollForTransfer 100] else [])
    else [])
  else [])

/-- Memory after `CopyBuffer`, given the statuses of its four calls. -/
def CopyBuffer_mem (pSrc pDst x y xsize ysize : Nat) (e : Env) (s : State) : Memory :=
  if e.status s.trace.length = .HAL_OK ∧ e.status (s.trace.length + 1) = .HAL_OK ∧
      e.status (s.trace.length + 2) = .HAL_OK then
    if e.status (s.trace.length + 3) = .HAL_OK then
      dma2dTransfer xsize 0 (toUInt32 (800 - (xsize : Int))) s.mem pSrc
        (destination pDst x y) ysize
    else
      { dma2dTransfer xsize 0 (toUInt32 (800 - (xsize : Int))) s.mem pSrc
          (destination pDst x y) ysize with
        cell := e.draw (s.trace.length + 3)
          (dma2dTransfer xsize 0 (toUInt32 (800 - (xsize : Int))) s.mem pSrc
            (destination pDst x y) ysize).cell }
  else s.mem

/-- The low-power command categories, one per field of `DSI_LPCmdTypeDef`. -/
inductive LPCategory where
  | GenShortWriteNoP
  | GenShortWriteOneP
  | GenShortWriteTwoP
  | GenShortReadNoP
  | GenShortReadOneP
  | GenShortReadTwoP
  | GenLongWrite
  | DcsShortWriteNoP
  | DcsShortWriteOneP
  | DcsShortReadNoP
  | DcsLongWrite
  deriving DecidableEq, Repr

def LPCategory.all : List LPCategory :=
  [.GenShortWriteNoP, .GenShortWriteOneP, .GenShortWriteTwoP, .GenShortReadNoP,
   .GenShortReadOneP, .GenShortReadTwoP, .GenLongWrite, .DcsShortWriteNoP,
   .DcsShortWriteOneP, .DcsShortReadNoP, .DcsLongWrite]

def DSI_LPCmdTypeDef.get (lp : DSI_LPCmdTypeDef) : LPCategory → LPState
  | .GenShortWriteNoP => lp.LPGenShortWriteNoP
  | .GenShortWriteOneP => lp.LPGenShortWriteOneP
  | .GenShortWriteTwoP => lp.LPGenShortWriteTwoP
  | .GenShortReadNoP => lp.LPGenShortReadNoP
  | .GenShortReadOneP => lp.LPGenShortReadOneP
  | .GenShortReadTwoP => lp.LPGenShortReadTwoP
  | .GenLongWrite => lp.LPGenLongWrite
  | .DcsShortWriteNoP => lp.LPDcsShortWriteNoP
  | .DcsShortWriteOneP => lp.LPDcsShortWriteOneP
  | .DcsShortReadNoP => lp.LPDcsShortReadNoP
  | .DcsLongWrite => lp.LPDcsLongWrite

/-- The categories a low-power command configuration holds in state `st`. -/
def DSI_LPCmdTypeDef.categories (lp : DSI_LPCmdTypeDef) (st : LPState) : List LPCategory :=
  LPCategory.all.filter fun c => lp.get c = st

/-- The values `LTDC_Init` writes to `hltdc_eval.Init` (lines 265-281). -/
def LTDC_Init_values : LTDC_InitTypeDef :=
  { HorizontalSync := HSYNC
    VerticalSync := VSYNC
    AccumulatedHBP := HSYNC + HBP
    AccumulatedVBP := VSYNC + VBP
    AccumulatedActiveH := VSYNC + VBP + VACT
    AccumulatedActiveW := HSYNC + HBP + HACT
    TotalHeigh := VSYNC + VBP + VACT + VFP
    TotalWidth := HSYNC + HBP + HACT + HFP
    Backcolor := { Blue := 0, Green := 0, Red := 0 }
    HSPolarity := .LTDC_HSPOLARITY_AL
    VSPolarity := .LTDC_VSPOLARITY_AL
    DEPolarity := .LTDC_DEPOLARITY_AL
    PCPolarity := .LTDC_PCPOLARITY_IPC }

/-- The board / clock calls `LCD_Init` makes before it touches the DSI link
(lines 170-178). -/
def LCD_Init_preamble : List Call :=
  [ .BSP_LCD_Reset,
    .BSP_LCD_MspInit,
    .HAL_RCCEx_PeriphCLKConfig
      { PeriphClockSelection := .RCC_PERIPHCLK_LTDC
        PLLSAIN := 417
        PLLSAIR := 5
        PLLSAIDivR := .RCC_PLLSAIDIVR_2 } ]

/-- The bring-up steps of the link as the specification lists them, step
(7) `LTDC_Init` being its two HAL calls. -/
def LCD_Init_link_steps (cfg : Config) : List Call :=
  [ .HAL_DSI_DeInit,
    .HAL_DSI_Init { NumberOfLanes := .DSI_TWO_DATA_LANES, TXEscapeCkdiv := 4 }
      (if cfg.USE_STM32469I_DISCO_REVA then
        { PLLNDIV := 100, PLLIDF := .DSI_PLL_IN_DIV5, PLLODF := .DSI_PLL_OUT_DIV1 }
      else
        { PLLNDIV := 125, PLLIDF := .DSI_PLL_IN_DIV2, PLLODF := .DSI_PLL_OUT_DIV1 }),
    .HAL_DSI_ConfigAdaptedCommandMode
      { VirtualChannelID := 0
        HSPolarity := .DSI_HSYNC_ACTIVE_HIGH
        VSPolarity := .DSI_VSYNC_ACTIVE_HIGH
        DEPolarity := .DSI_DATA_ENABLE_ACTIVE_HIGH
        ColorCoding := .DSI_RGB888
        CommandSize := 800
        TearingEffectSource := .DSI_TE_DSILINK
        TearingEffectPolarity := .DSI_TE_RISING_EDGE
        VSyncPol := .DSI_VSYNC_FALLING
        AutomaticRefresh := .DSI_AR_DISABLE
        TEAcknowledgeRequest := .DSI_TE_ACKNOWLEDGE_ENABLE },
    .HAL_DSI_ConfigCommand LPCmd_enable,
    .HAL_DSI_ConfigPhyTimer
      { ClockLaneHS2LPTime := 35
        ClockLaneLP2HSTime := 35
        DataLaneHS2LPTime := 35
        DataLaneLP2HSTime := 35
        DataLaneMaxReadTime := 0
        StopWaitTime := 10 },
    .HAL_LTDC_DeInit,
    .HAL_LTDC_Init LTDC_Init_values,
    .HAL_DSI_Start,
    (if cfg.USE_STM32469I_DISCO_REVC then
      .Panel_Init .NT35510 .NT35510_FORMAT_RGB888 .LCD_ORIENTATION_LANDSCAPE
    else
      .Panel_Init .OTM8009A .OTM8009A_COLMOD_RGB888 .LCD_ORIENTATION_LANDSCAPE),
    .HAL_DSI_ConfigCommand (LPCmd_disable LPCmd_enable),
    .HAL_DSI_ConfigFlowControl .DSI_FLOW_CONTROL_BTA,
    .HAL_DSI_Refresh ]

/-- The calls `LCD_Init` makes, in order. -/
def LCD_Init_calls (cfg : Config) : List Call :=
  LCD_Init_preamble ++ LCD_Init_link_steps cfg

/-- The calls `LCD_BriefDisplay` makes, in order. -/
def LCD_BriefDisplay_calls : List Call :=
  [ .BSP_LCD_SetFont .Font24,
    .BSP_LCD_SetTextColor .LCD_COLOR_BLUE,
    .BSP_LCD_FillRect 0 0 800 112,
    .BSP_LCD_SetTextColor .LCD_COLOR_WHITE,
    .BSP_LCD_FillRect 0 112 800 368,
    .BSP_LCD_SetBackColor .LCD_COLOR_BLUE,
    .BSP_LCD_DisplayStringAtLine 1 "      Room temperature",
    .BSP_LCD_SetFont .Font16,
    .BSP_LCD_DisplayStringAtLine 4 "      This shows the temperature in the house ",
    .BSP_LCD_DisplayStringAtLine 5 "      This is a proof of concept     ",
    .BSP_LCD_DisplayStringAtLine 10 "The temperature is: 28" ]

/-- The calls `main` makes before `pending_buffer = 0`, when the three clock
configuration calls succeed; `st0`, `st1`, `st2` are the statuses of the first
three calls of `CopyBuffer`. -/
def main_calls (cfg : Config) (st0 st1 st2 : HAL_StatusTypeDef) : List Call :=
  [.HAL_Init, .HAL_RCC_OscConfig RCC_OscInitStruct, .HAL_PWREx_EnableOverDrive,
    .HAL_RCC_ClockConfig RCC_ClkInitStruct .FLASH_LATENCY_5, .BSP_SDRAM_Init] ++
  LCD_Init_calls cfg ++
  [.BSP_LCD_LayerDefaultInit 0 (LAYER0_ADDRESS cfg), .BSP_LCD_SelectLayer 0] ++
  LCD_BriefDisplay_calls ++
  CopyBuffer_calls cfg.image_320x240_argb8888 (LAYER0_ADDRESS cfg) 240 160 320 240 st0 st1 st2

/-- Memory after `LCD_BriefDisplay`. -/
def LCD_BriefDisplay_mem (e : Env) (s : State) : Memory := (LCD_BriefDisplay e s).state.mem

/-! ## Concrete inputs -/

/-- An environment in which every call returns `HAL_OK`. -/
def Env.allOK : Env :=
  { status := fun _ => .HAL_OK, draw := fun _ cell => cell }

/-- An environment in which the call made when `k` calls are in the trace
returns `st`, and every other call returns `HAL_OK`. -/
def Env.failAt (k : Nat) (st : HAL_StatusTypeDef) : Env :=
  { status := fun n => if n = k then st else .HAL_OK, draw := fun _ cell => cell }

/-- A build for the revision-B board: framebuffer at the start of SDRAM,
`0xC0000000`, and the image array in flash at `0x08010000`. -/
def Config.disco : Config :=
  { USE_STM32469I_DISCO_REVA := false
    USE_STM32469I_DISCO_REVC := false
    LCD_FB_START_ADDRESS := 0xC0000000
    image_320x240_argb8888 := 0x08010000 }

/-- Memory holding 1 in the first pixel of the image array of `Config.disco`
and 0 everywhere else. -/
def imageOneElsewhereZero : Nat → Nat := fun a => if a = 0x08010000 then 1 else 0

/-! ## The DMA2D transfer: which cells it writes, and with what -/

theorem length_rectPixels (x y xsize ysize : Nat) :
    (rectPixels x y xsize ysize).length = xsize * ysize := by
  unfold rectPixels
  induction ysize with
  | zero => simp
  | succ n ih =>
    rw [List.range_succ, List.flatMap_append, List.length_append, ih]
    simp [Nat.mul_succ]

theorem mem_rectPixels (x y xsize ysize r c : Nat) :
    (r, c) ∈ rectPixels x y xsize ysize ↔
      (y ≤ r ∧ r < y + ysize) ∧ (x ≤ c ∧ c < x + xsize) := by
  simp only [rectPixels, List.mem_flatMap, List.mem_map, List.mem_range, Prod.mk.injEq]
  constructor
  · rintro ⟨i, hi, j, hj, rfl, rfl⟩
    omega
  · rintro ⟨⟨h1, h2⟩, h3, h4⟩
    exact ⟨r - y, by omega, c - x, by omega, by omega, by omega⟩

theorem nodup_rectPixels (x y xsize ysize : Nat) : (rectPixels x y xsize ysize).Nodup := by
  unfold rectPixels
  rw [List.nodup_flatMap]
  constructor
  · intro i _
    apply List.Nodup.map _ (List.nodup_range xsize)
    intro a b hab
    simp only [Prod.mk.injEq] at hab
    omega
  · apply (List.nodup_range ysize).pairwise_of_forall_ne
    intro a _ b _ hab
    simp only [Function.onFun]
    intro p hpa hpb
    simp only [List.mem_map, List.mem_range] at hpa hpb
    obtain ⟨j, _, rfl⟩ := hpa
    obtain ⟨k, _, hk⟩ := hpb
    simp only [Prod.mk.injEq] at hk
    omega

/-- Distinct pixels of a rectangle inside the 800 columns have distinct addresses. -/
theorem nodup_rectAddrs (base x y xsize ysize : Nat) (hx : x + xsize ≤ 800) :
    ((rectPixels x y xsize ysize).map fun p => pixelAddr base p.1 p.2).Nodup := by
  apply List.Nodup.map_on _ (nodup_rectPixels x y xsize ysize)
  rintro ⟨r, c⟩ hp ⟨r2, c2⟩ hq heq
  rw [mem_rectPixels] at hp hq
  simp only [pixelAddr] at heq
  simp only [Prod.mk.injEq]
  omega

theorem dma2dLine_writes (m : Memory) (src dst n : Nat) :
    (dma2dLine m src dst n).writes = m.writes ++ (List.range n).map fun k => dst + 4 * k := by
  induction n generalizing m src dst with
  | zero => simp [dma2dLine]
  | succ n ih =>
    rw [dma2dLine, ih, List.range_succ_eq_map]
    simp only [Memory.write, List.map_cons, List.map_map, List.append_assoc,
      List.singleton_append, Nat.mul_zero, Nat.add_zero]
    congr 2
    apply List.map_congr_left
    intro k _
    simp only [Function.comp, Nat.succ_eq_add_one]
    omega

theorem dma2dLine_cell_other (m : Memory) (src dst n b : Nat)
    (hb : ∀ k, k < n → b ≠ dst + 4 * k) :
    (dma2dLine m src dst n).cell b = m.cell b := by
  induction n generalizing m src dst with
  | zero => rfl
  | succ n ih =>
    rw [dma2dLine, ih]
    · have h0 : b ≠ dst := by simpa using hb 0 (Nat.succ_pos n)
      simp [Memory.write, h0]
    · intro k hk
      have := hb (k + 1) (by omega)
      omega

theorem dma2dLine_cell_written (m : Memory) (src dst n k : Nat)
    (hdisj : ∀ j i, j < n → i < n → src + 4 * j ≠ dst + 4 * i) (hk : k < n) :
    (dma2dLine m src dst n).cell (dst + 4 * k) = m.cell (src + 4 * k) := by
  induction n generalizing m src dst k with
  | zero => omega
  | succ n ih =>
    rw [dma2dLine]
    cases k with
    | zero =>
      rw [dma2dLine_cell_other]
      · simp [Memory.write]
      · intro i _
        omega
    | succ k =>
      have e1 : dst + 4 * (k + 1) = dst + 4 + 4 * k := by omega
      have e2 : src + 4 * (k + 1) = src + 4 + 4 * k := by omega
      rw [e1, e2, ih]
      · have h0 : src + 4 + 4 * k ≠ dst := by
          have := hdisj (k + 1) 0 (by omega) (by omega)
          omega
        simp [Memory.write, h0]
      · intro j i hj hi
        have := hdisj (j + 1) (i + 1) (by omega) (by omega)
        omega
      · omega

/-- A line copied onto itself leaves every cell as it was. -/
theorem dma2dLine_self_cell (m : Memory) (a n : Nat) :
    (dma2dLine m a a n).cell = m.cell := by
  induction n generalizing m a with
  | zero => rfl
  | succ n ih =>
    rw [dma2dLine, ih]
    funext b
    simp only [Memory.write]
    split
    · next h => rw [h]
    · rfl

theorem dma2dTransfer_writes (w io oo : Nat) (m : Memory) (src dst h : Nat) :
    (dma2dTransfer w io oo m src dst h).writes =
      m.writes ++ (List.range h).flatMap fun i =>
        (List.range w).map fun j => dst + 4 * (i * (w + oo) + j) := by
  induction h generalizing m src dst with
  | zero => simp [dma2dTransfer]
  | succ h ih =>
    rw [dma2dTransfer, ih, dma2dLine_writes, List.range_succ_eq_map, List.flatMap_cons,
      List.append_assoc]
    congr 2
    · apply List.map_congr_left
      intro j _
      omega
    · rw [List.flatMap_map]
      apply List.flatMap_congr
      intro i _
      apply List.map_congr_left
      intro j _
      have e : (i + 1) * (w + oo) = i * (w + oo) + (w + oo) := Nat.succ_mul i (w + oo)
      simp only [Nat.succ_eq_add_one, e]
      omega

theorem dma2dTransfer_cell_other (w io oo : Nat) (m : Memory) (src dst h b : Nat)
    (hb : ∀ i j, i < h → j < w → b ≠ dst + 4 * (i * (w + oo) + j)) :
    (dma2dTransfer w io oo m src dst h).cell b = m.cell b := by
  induction h generalizing m src dst with
  | zero => rfl
  | succ h ih =>
    rw [dma2dTransfer, ih, dma2dLine_cell_other]
    · intro k hk
      have := hb 0 k (by omega) hk
      omega
    · intro i j hi hj
      have := hb (i + 1) j (by omega) hj
      have e : (i + 1) * (w + oo) = i * (w + oo) + (w + oo) := Nat.succ_mul i (w + oo)
      omega

theorem dma2dTransfer_cell_written (w io oo : Nat) (m : Memory) (src dst h i j : Nat)
    (hdisj : ∀ i1 j1 i2 j2, i1 < h → j1 < w → i2 < h → j2 < w →
      src + 4 * (i1 * (w + io) + j1) ≠ dst + 4 * (i2 * (w + oo) + j2))
    (hi : i < h) (hj : j < w) :
    (dma2dTransfer w io oo m src dst h).cell (dst + 4 * (i * (w + oo) + j)) =
      m.cell (src + 4 * (i * (w + io) + j)) := by
  induction h generalizing m src dst i with
  | zero => omega
  | succ h ih =>
    rw [dma2dTransfer]
    cases i with
    | zero =>
      rw [dma2dTransfer_cell_other]
      · have e1 : dst + 4 * (0 * (w + oo) + j) = dst + 4 * j := by omega
        have e2 : src + 4 * (0 * (w + io) + j) = src + 4 * j := by omega
        rw [e1, e2, dma2dLine_cell_written _ _ _ _ _ _ hj]
        intro j1 j2 h1 h2
        have := hdisj 0 j1 0 j2 (by omega) h1 (by omega) h2
        omega
      · intro i2 j2 _ h2
        omega
    | succ i =>
      have eo : (i + 1) * (w + oo) = i * (w + oo) + (w + oo) := Nat.succ_mul i (w + oo)
      have ei : (i + 1) * (w + io) = i * (w + io) + (w + io) := Nat.succ_mul i (w + io)
      have e1 : dst + 4 * ((i + 1) * (w + oo) + j) =
          dst + 4 * (w + oo) + 4 * (i * (w + oo) + j) := by omega
      have e2 : src + 4 * ((i + 1) * (w + io) + j) =
          src + 4 * (w + io) + 4 * (i * (w + io) + j) := by omega
      rw [e1, e2, ih _ _ _ _ _ (by omega), dma2dLine_cell_other]
      · intro k hk
        have := hdisj (i + 1) j 0 k (by omega) hj (by omega) hk
        omega
      · intro i1 j1 i2 j2 h1 h2 h3 h4
        have := hdisj (i1 + 1) j1 (i2 + 1) j2 (by omega) h2 (by omega) h4
        have eo2 : (i2 + 1) * (w + oo) = i2 * (w + oo) + (w + oo) := Nat.succ_mul i2 (w + oo)
        have ei1 : (i1 + 1) * (w + io) = i1 * (w + io) + (w + io) := Nat.succ_mul i1 (w + io)
        omega

/-- A transfer whose source is its destination, with equal offsets, leaves
every cell as it was. -/
theorem dma2dTransfer_self_cell (w off : Nat) (m : Memory) (a h : Nat) :
    (dma2dTransfer w off off m a a h).cell = m.cell := by
  induction h generalizing m a with
  | zero => rfl
  | succ h ih => rw [dma2dTransfer, ih, dma2dLine_self_cell]

/-! ## C integer arithmetic of the blit descriptor -/

theorem toUInt32_ofNat (n : Nat) (h : n < 2 ^ 32) : toUInt32 (n : Int) = n := by
  unfold toUInt32
  omega

theorem toUInt32_sub_le (xsize : Nat) (h : xsize ≤ 800) :
    toUInt32 (800 - (xsize : Int)) = 800 - xsize := by
  unfold toUInt32
  omega

theorem toUInt32_sub_gt (xsize : Nat) (h : 800 < xsize) (h16 : xsize < 2 ^ 16) :
    toUInt32 (800 - (xsize : Int)) = 2 ^ 32 + 800 - xsize := by
  unfold toUInt32
  omega

theorem destination_eq (pDst x y : Nat) :
    destination pDst x y = (pDst + 4 * (y * 800 + x)) % 2 ^ 32 := by
  unfold destination destinationOffset toUInt32
  omega

theorem destination_eq_pixelAddr (pDst x y : Nat) (hx : x < 800) (hy : y < 480)
    (hfb : pDst + 4 * (800 * 480) ≤ 2 ^ 32) :
    destination pDst x y = pixelAddr pDst y x := by
  unfold destination destinationOffset toUInt32 pixelAddr
  omega

/-! ## Closed forms of the functions of the program -/

theorem CopyBuffer_eq (pSrc pDst x y xsize ysize : Nat) (e : Env) (s : State) :
    CopyBuffer pSrc pDst x y xsize ysize e s =
      .ret ()
        { s with
          hdma2d := CopyBuffer_hdma2d xsize
          mem := CopyBuffer_mem pSrc pDst x y xsize ysize e s
          trace := s.trace ++
            (CopyBuffer_calls pSrc pDst x y xsize ysize (e.status s.trace.length)
              (e.status (s.trace.length + 1)) (e.status (s.trace.length + 2))).map
              fun c => ⟨c, s.pending_buffer⟩ } := by
  simp only [CopyBuffer, CopyBuffer_calls, CopyBuffer_hdma2d, CopyBuffer_mem, bind, pure,
    modifyState, getState, HAL_DMA2D_Init, HAL_DMA2D_ConfigLayer, HAL_DMA2D_Start,
    HAL_DMA2D_PollForTransfer, hal]
  by_cases h0 : e.status s.trace.length = .HAL_OK
  · by_cases h1 : e.status (s.trace.length + 1) = .HAL_OK
    · by_cases h2 : e.status (s.trace.length + 2) = .HAL_OK
      · by_cases h3 : e.status (s.trace.length + 3) = .HAL_OK
        · simp [h0, h1, h2, h3]
        · simp [h0, h1, h2, h3]
      · simp [h0, h1, h2]
    · simp [h0, h1]
  · simp [h0]

/-- What `CopyBuffer` does to memory when its rectangle lies inside the
framebuffer, the source lies outside the rectangle and the HAL calls succeed. -/
theorem CopyBuffer_blit_cells (e : Env) (s : State) (pSrc pDst x y xsize ysize : Nat)
    (hx : x + xsize ≤ 800) (hy : y + ysize ≤ 480)
    (hfb : pDst + 4 * (800 * 480) ≤ 2 ^ 32)
    (hsrc : ∀ k r c, k < xsize * ysize → (r, c) ∈ rectPixels x y xsize ysize →
      pSrc + 4 * k ≠ pixelAddr pDst r c)
    (h0 : e.status s.trace.length = .HAL_OK)
    (h1 : e.status (s.trace.length + 1) = .HAL_OK)
    (h2 : e.status (s.trace.length + 2) = .HAL_OK)
    (h3 : e.status (s.trace.length + 3) = .HAL_OK) :
    (CopyBuffer pSrc pDst x y xsize ysize e s).state.hdma2d.Init.OutputOffset = 800 - xsize ∧
    (CopyBuffer pSrc pDst x y xsize ysize e s).state.mem.writes =
      s.mem.writes ++ (rectPixels x y xsize ysize).map (fun p => pixelAddr pDst p.1 p.2) ∧
    (∀ r c, r < 480 → c < 800 →
      (CopyBuffer pSrc pDst x y xsize ysize e s).state.mem.cell (pixelAddr pDst r c) =
        if (y ≤ r ∧ r < y + ysize) ∧ (x ≤ c ∧ c < x + xsize) then
          s.mem.cell (pSrc + 4 * ((r - y) * xsize + (c - x)))
        else s.mem.cell (pixelAddr pDst r c)) := by
  have hoo : toUInt32 (800 - (xsize : Int)) = 800 - xsize := toUInt32_sub_le xsize (by omega)
  have hstride : xsize + (800 - xsize) = 800 := by omega
  have hdst : ∀ i j, i < ysize → j < xsize →
      destination pDst x y + 4 * (i * 800 + j) = pixelAddr pDst (y + i) (x + j) := by
    intro i j hi hj
    rw [destination_eq_pixelAddr pDst x y (by omega) (by omega) hfb]
    unfold pixelAddr
    omega
  have hlt : ∀ i j, i < ysize → j < xsize → i * xsize + j < xsize * ysize := by
    intro i j hi hj
    calc i * xsize + j < i * xsize + xsize := by omega
      _ = (i + 1) * xsize := (Nat.succ_mul i xsize).symm
      _ ≤ ysize * xsize := Nat.mul_le_mul_right xsize hi
      _ = xsize * ysize := Nat.mul_comm _ _
  rw [CopyBuffer_eq]
  simp only [Run.state, CopyBuffer_mem, CopyBuffer_hdma2d, h0, h1, h2, h3, and_self, if_true, hoo]
  refine ⟨trivial, ?_, ?_⟩
  · rw [dma2dTransfer_writes, hstride]
    congr 1
    unfold rectPixels
    rw [List.map_flatMap]
    apply List.flatMap_congr
    intro i hi
    rw [List.map_map]
    apply List.map_congr_left
    intro j hj
    exact hdst i j (List.mem_range.mp hi) (List.mem_range.mp hj)
  · intro r c hr hc
    split
    · next hin =>
      obtain ⟨⟨hr1, hr2⟩, hc1, hc2⟩ := hin
      have hi : r - y < ysize := by omega
      have hj : c - x < xsize := by omega
      have hrc : pixelAddr pDst r c =
          destination pDst x y + 4 * ((r - y) * (xsize + (800 - xsize)) + (c - x)) := by
        rw [hstride, hdst _ _ hi hj]
        congr 1 <;> omega
      rw [hrc, dma2dTransfer_cell_written _ _ _ _ _ _ _ _ _ _ hi hj]
      · simp
      · intro i1 j1 i2 j2 hi1 hj1 hi2 hj2
        rw [hstride, hdst _ _ hi2 hj2, Nat.add_zero]
        apply hsrc _ _ _ (hlt i1 j1 hi1 hj1)
        rw [mem_rectPixels]
        omega
    · next hout =>
      apply dma2dTransfer_cell_other
      intro i j hi hj
      rw [hstride, hdst _ _ hi hj]
      unfold pixelAddr
      omega

theorem LTDC_Init_eq (e : Env) (s : State) :
    LTDC_Init e s =
      .ret ()
        { s with
          hltdc_eval := { Instance := .LTDC, Init := LTDC_Init_values }
          trace := s.trace ++
            [⟨.HAL_LTDC_DeInit, s.pending_buffer⟩,
             ⟨.HAL_LTDC_Init LTDC_Init_values, s.pending_buffer⟩] } := by
  simp [LTDC_Init, LTDC_Init_values, bind, pure, modifyState, getState, hal]

theorem LCD_Init_eq (cfg : Config) (e : Env) (s : State) :
    LCD_Init cfg e s =
      .ret .LCD_OK
        { s with
          hltdc_eval := { Instance := .LTDC, Init := LTDC_Init_values }
          hdsi_eval := {
            Instance := .DSI
            Init := { NumberOfLanes := .DSI_TWO_DATA_LANES, TXEscapeCkdiv := 4 } }
          trace := s.trace ++ (LCD_Init_calls cfg).map fun c => ⟨c, s.pending_buffer⟩ } := by
  cases hA : cfg.USE_STM32469I_DISCO_REVA <;> cases hC : cfg.USE_STM32469I_DISCO_REVC <;>
    simp [LCD_Init, LCD_Init_calls, LCD_Init_preamble, LCD_Init_link_steps, LTDC_Init_eq, HACT, hA, hC, bind, pure, modifyState,
      getState, hal]

theorem LCD_BriefDisplay_eq (e : Env) (s : State) :
    LCD_BriefDisplay e s =
      .ret () { s with
        mem := LCD_BriefDisplay_mem e s
        trace := s.trace ++ LCD_BriefDisplay_calls.map fun c => ⟨c, s.pending_buffer⟩ } := by
  simp [LCD_BriefDisplay_mem, LCD_BriefDisplay, LCD_BriefDisplay_calls, ReadTemperature,
    Run.state, bind, pure, hal, bspDraw]
  rfl

theorem main_blit_eq (cfg : Config) (e : Env) (s : State) :
    main_blit cfg e s =
      .ret ()
        { s with
          pending_buffer := 0
          hdma2d := CopyBuffer_hdma2d 320
          mem := CopyBuffer_mem cfg.image_320x240_argb8888 (LAYER0_ADDRESS cfg) 240 160 320 240 e s
          trace := s.trace ++
            ((CopyBuffer_calls cfg.image_320x240_argb8888 (LAYER0_ADDRESS cfg) 240 160 320 240
              (e.status s.trace.length) (e.status (s.trace.length + 1))
              (e.status (s.trace.length + 2))).map fun c => ⟨c, s.pending_buffer⟩) ++
            [⟨.HAL_DSI_Refresh, 0⟩] } := by
  simp [main_blit, CopyBuffer_eq, bind, pure, modifyState, hal]

/-- The program state `main` reaches at its final loop when the three clock
configuration calls succeed. -/
theorem main_eq (cfg : Config) (e : Env) (s : State)
    (h1 : e.status (s.trace.length + 1) = .HAL_OK)
    (h2 : e.status (s.trace.length + 2) = .HAL_OK)
    (h3 : e.status (s.trace.length + 3) = .HAL_OK) :
    main cfg e s =
      .ret ()
        { s with
          pending_buffer := 0
          hdma2d := CopyBuffer_hdma2d 320
          hltdc_eval := { Instance := .LTDC, Init := LTDC_Init_values }
          hdsi_eval := {
            Instance := .DSI
            Init := { NumberOfLanes := .DSI_TWO_DATA_LANES, TXEscapeCkdiv := 4 } }
          mem := (main cfg e s).state.mem
          trace := s.trace ++
            ((main_calls cfg (e.status (s.trace.length + 33)) (e.status (s.trace.length + 34))
              (e.status (s.trace.length + 35))).map fun c => ⟨c, s.pending_buffer⟩) ++
            [⟨.HAL_DSI_Refresh, 0⟩] } := by
  simp [main, main_calls, SystemClock_Config, OnError_Handler, LCD_Init_eq, LCD_BriefDisplay_eq,
    main_blit_eq, LCD_Init_calls, LCD_Init_preamble, LCD_Init_link_steps, LCD_BriefDisplay_calls, Run.state, bind, pure, modifyState,
    hal, loopForever, h1, h2, h3, Nat.add_assoc]

theorem CopyBuffer_calls_filter (pSrc pDst x y xsize ysize : Nat)
    (st0 st1 st2 : HAL_StatusTypeDef) :
    (CopyBuffer_calls pSrc pDst x y xsize ysize st0 st1 st2).filter
        (fun c => c = .HAL_DSI_Refresh) = [] := by
  unfold CopyBuffer_calls
  by_cases h0 : st0 = .HAL_OK <;> by_cases h1 : st1 = .HAL_OK <;>
    by_cases h2 : st2 = .HAL_OK <;> simp [h0, h1, h2]

theorem LCD_Init_calls_filter (cfg : Config) :
    (LCD_Init_calls cfg).filter (fun c => c = .HAL_DSI_Refresh) =
      [.HAL_DSI_Refresh] := by
  cases hA : cfg.USE_STM32469I_DISCO_REVA <;> cases hC : cfg.USE_STM32469I_DISCO_REVC <;>
    simp [LCD_Init_calls, LCD_Init_preamble, LCD_Init_link_steps, hA, hC]

/-- Before `pending_buffer = 0`, `main` requests exactly one refresh. -/
theorem main_calls_filter (cfg : Config) (st0 st1 st2 : HAL_StatusTypeDef) :
    (main_calls cfg st0 st1 st2).filter (fun c => c = .HAL_DSI_Refresh) =
      [.HAL_DSI_Refresh] := by
  unfold main_calls
  rw [List.filter_append, List.filter_append, List.filter_append, List.filter_append,
    CopyBuffer_calls_filter, LCD_Init_calls_filter]
  simp [LCD_BriefDisplay_calls]

/-! ## Claims about the blit (`CopyBuffer`) -/

/-- C1.  With `x + xsize ≤ 800`, `y + ysize ≤ 480`, the 800x480 framebuffer at
`pDst` inside the 32-bit address space, the source pixels outside the
destination rectangle, and the four HAL calls returning `HAL_OK`,
`CopyBuffer` programs output offset `800 - xsize`; the DMA2D engine performs
`xsize * ysize` writes, one to each pixel of the rectangle and no two to the
same address, row by row; and
afterwards each framebuffer pixel `(r, c)` of the rectangle holds
`src[(r - y) * xsize + (c - x)]` while every other framebuffer pixel holds
what it held before. -/
theorem CopyBuffer_blit (e : Env) (s : State) (pSrc pDst x y xsize ysize : Nat)
    (hx : x + xsize ≤ 800) (hy : y + ysize ≤ 480)
    (hfb : pDst + 4 * (800 * 480) ≤ 2 ^ 32)
    (hsrc : ∀ k r c, k < xsize * ysize → (r, c) ∈ rectPixels x y xsize ysize →
      pSrc + 4 * k ≠ pixelAddr pDst r c)
    (h0 : e.status s.trace.length = .HAL_OK)
    (h1 : e.status (s.trace.length + 1) = .HAL_OK)
    (h2 : e.status (s.trace.length + 2) = .HAL_OK)
    (h3 : e.status (s.trace.length + 3) = .HAL_OK) :
    (CopyBuffer pSrc pDst x y xsize ysize e s).state.hdma2d.Init.OutputOffset = 800 - xsize ∧
    (CopyBuffer pSrc pDst x y xsize ysize e s).state.mem.writes =
      s.mem.writes ++ (rectPixels x y xsize ysize).map (fun p => pixelAddr pDst p.1 p.2) ∧
    ((rectPixels x y xsize ysize).length = xsize * ysize ∧
      ((rectPixels x y xsize ysize).map (fun p => pixelAddr pDst p.1 p.2)).Nodup) ∧
    (∀ r c, (r, c) ∈ rectPixels x y xsize ysize ↔
      (y ≤ r ∧ r < y + ysize) ∧ (x ≤ c ∧ c < x + xsize)) ∧
    (∀ r c, r < 480 → c < 800 →
      (CopyBuffer pSrc pDst x y xsize ysize e s).state.mem.cell (pixelAddr pDst r c) =
        if (y ≤ r ∧ r < y + ysize) ∧ (x ≤ c ∧ c < x + xsize) then
          s.mem.cell (pSrc + 4 * ((r - y) * xsize + (c - x)))
        else s.mem.cell (pixelAddr pDst r c)) :=
  have h := CopyBuffer_blit_cells e s pSrc pDst x y xsize ysize hx hy hfb hsrc h0 h1 h2 h3
  ⟨h.1, h.2.1, ⟨length_rectPixels x y xsize ysize, nodup_rectAddrs pDst x y xsize ysize hx⟩,
    mem_rectPixels x y xsize ysize, h.2.2⟩

/-- The blit of `main` on a memory whose only non-zero word is the first image
pixel: offset 480, pixel (160, 240) receives 1, pixel (159, 240) keeps 0. -/
theorem CopyBuffer_blit_witness :
    (CopyBuffer 0x08010000 0xC0000000 240 160 320 240 Env.allOK
        (State.reset imageOneElsewhereZero)).state.hdma2d.Init.OutputOffset = 800 - 320 ∧
    (CopyBuffer 0x08010000 0xC0000000 240 160 320 240 Env.allOK
        (State.reset imageOneElsewhereZero)).state.mem.cell (pixelAddr 0xC0000000 160 240) = 1 ∧
    (CopyBuffer 0x08010000 0xC0000000 240 160 320 240 Env.allOK
        (State.reset imageOneElsewhereZero)).state.mem.cell (pixelAddr 0xC0000000 159 240) = 0 :=
  have h := CopyBuffer_blit Env.allOK (State.reset imageOneElsewhereZero)
    0x08010000 0xC0000000 240 160 320 240 (by omega) (by omega) (by omega)
    (by
      intro k r c hk hrc
      rw [mem_rectPixels] at hrc
      unfold pixelAddr
      omega)
    rfl rfl rfl rfl
  ⟨h.1,
    (h.2.2.2.2 160 240 (by omega) (by omega)).trans
      (by simp [State.reset, imageOneElsewhereZero]),
    (h.2.2.2.2 159 240 (by omega) (by omega)).trans
      (by simp [State.reset, imageOneElsewhereZero, pixelAddr])⟩

/-- C7.  For a buffer at a 32-bit address `pB`, with the four HAL calls
returning `HAL_OK`, `CopyBuffer(B, B, 0, 0, 800, 480)` starts the transfer
with source and destination both `pB`, programs output offset 0, and leaves
every memory cell, hence the buffer, as it was. -/
theorem CopyBuffer_self (e : Env) (s : State) (pB : Nat) (hB : pB < 2 ^ 32)
    (h0 : e.status s.trace.length = .HAL_OK)
    (h1 : e.status (s.trace.length + 1) = .HAL_OK)
    (h2 : e.status (s.trace.length + 2) = .HAL_OK)
    (h3 : e.status (s.trace.length + 3) = .HAL_OK) :
    destination pB 0 0 = pB ∧
    Call.HAL_DMA2D_Start pB pB 800 480 ∈
      (CopyBuffer pB pB 0 0 800 480 e s).state.trace.map Event.call ∧
    (CopyBuffer pB pB 0 0 800 480 e s).state.hdma2d.Init.OutputOffset = 0 ∧
    (CopyBuffer pB pB 0 0 800 480 e s).state.mem.cell = s.mem.cell := by
  have hd : destination pB 0 0 = pB := by
    unfold destination destinationOffset toUInt32
    omega
  have hoo : toUInt32 (800 - ((800 : Nat) : Int)) = 0 := by
    unfold toUInt32
    omega
  rw [CopyBuffer_eq]
  simp only [Run.state, CopyBuffer_mem, CopyBuffer_hdma2d, CopyBuffer_calls, h0, h1, h2, h3,
    and_self, if_true, hoo, hd]
  refine ⟨trivial, ?_, trivial, dma2dTransfer_self_cell 800 0 s.mem pB 480⟩
  simp

/-- The framebuffer at `0xC0000000` copied onto itself. -/
theorem CopyBuffer_self_witness :
    (CopyBuffer 0xC0000000 0xC0000000 0 0 800 480 Env.allOK
        (State.reset imageOneElsewhereZero)).state.hdma2d.Init.OutputOffset = 0 ∧
    (CopyBuffer 0xC0000000 0xC0000000 0 0 800 480 Env.allOK
        (State.reset imageOneElsewhereZero)).state.mem.cell =
      (State.reset imageOneElsewhereZero).mem.cell :=
  have h := CopyBuffer_self Env.allOK (State.reset imageOneElsewhereZero) 0xC0000000
    (by omega) rfl rfl rfl rfl
  ⟨h.2.2.1, h.2.2.2⟩

/-- C8.  Whatever its arguments and whatever the HAL returns, `CopyBuffer`
returns to its caller, with the same program variables in every case (nothing
tells the caller of a failure).  It makes its HAL calls in the order
Init, ConfigLayer, Start, PollForTransfer and stops after the first of the
first three that does not return `HAL_OK`; in that case memory is left as it
was.  `HAL_DMA2D_PollForTransfer` is called exactly when the first three
calls all returned `HAL_OK`, and then with timeout 100; `HAL_DMA2D_Start` is
called only when Init and ConfigLayer returned `HAL_OK`. -/
theorem CopyBuffer_silent_failure (e : Env) (s : State) (pSrc pDst x y xsize ysize : Nat) :
    (∃ s1, CopyBuffer pSrc pDst x y xsize ysize e s = .ret () s1 ∧
      s1.pending_buffer = s.pending_buffer ∧ s1.led3 = s.led3 ∧
      s1.hltdc_eval = s.hltdc_eval ∧ s1.hdsi_eval = s.hdsi_eval ∧
      s1.hdma2d = CopyBuffer_hdma2d xsize) ∧
    (CopyBuffer pSrc pDst x y xsize ysize e s).state.trace.map Event.call =
      s.trace.map Event.call ++
        [Call.HAL_DMA2D_Init (CopyBuffer_hdma2d xsize)] ++
        (if e.status s.trace.length = .HAL_OK then
          [Call.HAL_DMA2D_ConfigLayer (CopyBuffer_hdma2d xsize) 1] ++
          (if e.status (s.trace.length + 1) = .HAL_OK then
            [Call.HAL_DMA2D_Start pSrc (destination pDst x y) xsize ysize] ++
            (if e.status (s.trace.length + 2) = .HAL_OK then
              [Call.HAL_DMA2D_PollForTransfer 100]
            else [])
          else [])
        else []) ∧
    (¬ (e.status s.trace.length = .HAL_OK ∧ e.status (s.trace.length + 1) = .HAL_OK ∧
        e.status (s.trace.length + 2) = .HAL_OK) →
      (CopyBuffer pSrc pDst x y xsize ysize e s).state.mem = s.mem) ∧
    (∀ t, Call.HAL_DMA2D_PollForTransfer t ∈
        ((CopyBuffer pSrc pDst x y xsize ysize e s).state.trace.drop s.trace.length).map
          Event.call ↔
      t = 100 ∧ e.status s.trace.length = .HAL_OK ∧ e.status (s.trace.length + 1) = .HAL_OK ∧
        e.status (s.trace.length + 2) = .HAL_OK) ∧
    (∀ src dst w h, Call.HAL_DMA2D_Start src dst w h ∈
        ((CopyBuffer pSrc pDst x y xsize ysize e s).state.trace.drop s.trace.length).map
          Event.call →
      e.status s.trace.length = .HAL_OK ∧ e.status (s.trace.length + 1) = .HAL_OK) := by
  rw [CopyBuffer_eq]
  refine ⟨⟨_, rfl, rfl, rfl, rfl, rfl, rfl⟩, ?_, ?_, ?_, ?_⟩
  · simp only [Run.state, CopyBuffer_calls, List.map_append, List.map_map, List.append_assoc]
    congr 1
    by_cases h0 : e.status s.trace.length = .HAL_OK <;>
    by_cases h1 : e.status (s.trace.length + 1) = .HAL_OK <;>
    by_cases h2 : e.status (s.trace.length + 2) = .HAL_OK <;>
    simp [h0, h1, h2]
  · intro hfail
    simp only [Run.state, CopyBuffer_mem, hfail, if_false]
  · intro t
    simp only [Run.state, CopyBuffer_calls, List.drop_left, List.map_map]
    by_cases h0 : e.status s.trace.length = .HAL_OK <;>
    by_cases h1 : e.status (s.trace.length + 1) = .HAL_OK <;>
    by_cases h2 : e.status (s.trace.length + 2) = .HAL_OK <;>
    simp [h0, h1, h2, eq_comm]
  · intro src dst w h
    simp only [Run.state, CopyBuffer_calls, List.drop_left, List.map_map]
    by_cases h0 : e.status s.trace.length = .HAL_OK <;>
    by_cases h1 : e.status (s.trace.length + 1) = .HAL_OK <;>
    simp [h0, h1]

/-- When `HAL_DMA2D_Init` returns `HAL_ERROR`, it is the only call made and
memory is untouched. -/
theorem CopyBuffer_silent_failure_witness :
    (Env.failAt 0 .HAL_ERROR).status 0 = .HAL_ERROR ∧
    (CopyBuffer 0x08010000 0xC0000000 240 160 320 240 (Env.failAt 0 .HAL_ERROR)
        (State.reset imageOneElsewhereZero)).state.trace.map Event.call =
      [Call.HAL_DMA2D_Init (CopyBuffer_hdma2d 320)] ∧
    (CopyBuffer 0x08010000 0xC0000000 240 160 320 240 (Env.failAt 0 .HAL_ERROR)
        (State.reset imageOneElsewhereZero)).state.mem =
      (State.reset imageOneElsewhereZero).mem :=
  have h := CopyBuffer_silent_failure (Env.failAt 0 .HAL_ERROR)
    (State.reset imageOneElsewhereZero) 0x08010000 0xC0000000 240 160 320 240
  ⟨rfl, h.2.1, h.2.2.1 (by decide)⟩

/-- C10.  For 16-bit unsigned `x`, `y`, `xsize`: the `int` offset
`(y * 800 + x) * 4` lies between 0 and 209,974,140, below `2 ^ 31`, so the
destination address is `(pDst + 4 * (y * 800 + x)) mod 2 ^ 32`; the output
offset `CopyBuffer` programs equals `800 - xsize`, and adds up with `xsize`
to 800, exactly when `xsize ≤ 800`, and is `2 ^ 32 + 800 - xsize` when
`xsize > 800`. -/
theorem CopyBuffer_descriptor_arith (e : Env) (s : State)
    (pSrc pDst x y xsize ysize : Nat)
    (hx : x < 2 ^ 16) (hy : y < 2 ^ 16) (hxs : xsize < 2 ^ 16) :
    (0 ≤ destinationOffset x y ∧ destinationOffset x y ≤ 209974140 ∧
      (209974140 : Int) < 2 ^ 31) ∧
    destination pDst x y = (pDst + 4 * (y * 800 + x)) % 2 ^ 32 ∧
    ((((CopyBuffer pSrc pDst x y xsize ysize e s).state.hdma2d.Init.OutputOffset : Nat) : Int) =
        800 - (xsize : Int) ↔ xsize ≤ 800) ∧
    (xsize + (CopyBuffer pSrc pDst x y xsize ysize e s).state.hdma2d.Init.OutputOffset = 800 ↔
        xsize ≤ 800) ∧
    (800 < xsize →
      (CopyBuffer pSrc pDst x y xsize ysize e s).state.hdma2d.Init.OutputOffset =
        2 ^ 32 + 800 - xsize) := by
  rw [CopyBuffer_eq]
  simp only [Run.state, CopyBuffer_hdma2d]
  refine ⟨?_, destination_eq pDst x y, ?_, ?_, ?_⟩
  · unfold destinationOffset
    omega
  · unfold toUInt32
    omega
  · unfold toUInt32
    omega
  · intro h
    exact toUInt32_sub_gt xsize h hxs

/-- The largest offset, at `x = y = 65535`, and the wrapped output offset for
`xsize = 801`. -/
theorem CopyBuffer_descriptor_arith_witness :
    destinationOffset 65535 65535 = 209974140 ∧
    destination 0xC0000000 65535 65535 = (0xC0000000 + 4 * (65535 * 800 + 65535)) % 2 ^ 32 ∧
    (CopyBuffer 0x08010000 0xC0000000 65535 65535 801 1 Env.allOK
        (State.reset imageOneElsewhereZero)).state.hdma2d.Init.OutputOffset = 2 ^ 32 + 800 - 801 :=
  have h := CopyBuffer_descriptor_arith Env.allOK (State.reset imageOneElsewhereZero)
    0x08010000 0xC0000000 65535 65535 801 1 (by omega) (by omega) (by omega)
  ⟨by unfold destinationOffset; omega, h.2.1, h.2.2.2.2 (by omega)⟩

/-! ## Claims about `main`: the end-to-end blit and the refresh -/

/-- C2, as stated, fails: when `HAL_DMA2D_Init` returns `HAL_ERROR`,
`CopyBuffer` copies nothing, and after the blit and the refresh trigger of
`main` the framebuffer pixel at row 160, column 240 still holds its initial
value 0, not the first pixel, 1, of the source image. -/
theorem main_blit_init_failure_keeps_framebuffer :
    (Env.failAt 0 .HAL_ERROR).status (State.reset imageOneElsewhereZero).trace.length
      = .HAL_ERROR ∧
    ∃ r c, (160 ≤ r ∧ r < 400) ∧ (240 ≤ c ∧ c < 560) ∧
      (main_blit Config.disco (Env.failAt 0 .HAL_ERROR)
          (State.reset imageOneElsewhereZero)).state.mem.cell
        (pixelAddr Config.disco.LCD_FB_START_ADDRESS r c) ≠
      (State.reset imageOneElsewhereZero).mem.cell
        (Config.disco.image_320x240_argb8888 + 4 * ((r - 160) * 320 + (c - 240))) := by
  refine ⟨rfl, 160, 240, by omega, by omega, ?_⟩
  rw [main_blit_eq]
  simp [Run.state, CopyBuffer_mem, Env.failAt, State.reset, imageOneElsewhereZero, pixelAddr,
    Config.disco]

/-- C2, amended.  When the four DMA2D calls of `CopyBuffer` return `HAL_OK`
(framebuffer inside the address space, image array outside the framebuffer),
the blit of `main` followed by the refresh trigger leaves every framebuffer
pixel outside rows 160..399, columns 240..559 as it was and pixel `(r, c)`
inside equal to `S[(r - 160) * 320 + (c - 240)]`; the refresh trigger does
not modify memory (whatever the HAL returns). -/
theorem main_blit_end_to_end (cfg : Config) (e : Env) (s : State)
    (hfb : cfg.LCD_FB_START_ADDRESS + 4 * (800 * 480) ≤ 2 ^ 32)
    (hsrc : ∀ k p, k < 320 * 240 → p < 800 * 480 →
      cfg.image_320x240_argb8888 + 4 * k ≠ cfg.LCD_FB_START_ADDRESS + 4 * p)
    (h0 : e.status s.trace.length = .HAL_OK)
    (h1 : e.status (s.trace.length + 1) = .HAL_OK)
    (h2 : e.status (s.trace.length + 2) = .HAL_OK)
    (h3 : e.status (s.trace.length + 3) = .HAL_OK) :
    (∀ r c, r < 480 → c < 800 →
      (main_blit cfg e s).state.mem.cell (pixelAddr cfg.LCD_FB_START_ADDRESS r c) =
        if (160 ≤ r ∧ r < 400) ∧ (240 ≤ c ∧ c < 560) then
          s.mem.cell (cfg.image_320x240_argb8888 + 4 * ((r - 160) * 320 + (c - 240)))
        else s.mem.cell (pixelAddr cfg.LCD_FB_START_ADDRESS r c)) ∧
    (main_blit cfg e s).state.mem =
      (CopyBuffer cfg.image_320x240_argb8888 (LAYER0_ADDRESS cfg) 240 160 320 240 e s).state.mem ∧
    (main_blit cfg e s).state.trace.getLast? = some ⟨.HAL_DSI_Refresh, 0⟩ := by
  have hmem : (main_blit cfg e s).state.mem =
      (CopyBuffer cfg.image_320x240_argb8888 (LAYER0_ADDRESS cfg) 240 160 320 240 e s).state.mem := by
    rw [main_blit_eq, CopyBuffer_eq]
    rfl
  refine ⟨?_, hmem, ?_⟩
  · intro r c hr hc
    rw [hmem]
    exact (CopyBuffer_blit_cells e s cfg.image_320x240_argb8888 cfg.LCD_FB_START_ADDRESS
      240 160 320 240 (by omega) (by omega) hfb
      (by
        intro k r c hk hrc
        rw [mem_rectPixels] at hrc
        exact hsrc k (r * 800 + c) hk (by omega))
      h0 h1 h2 h3).2.2 r c hr hc
  · rw [main_blit_eq]
    simp [Run.state]

/-- The blit and refresh of `main` with every call succeeding, on a memory
whose only non-zero word is the first image pixel. -/
theorem main_blit_end_to_end_witness :
    (main_blit Config.disco Env.allOK
        (State.reset imageOneElsewhereZero)).state.mem.cell
      (pixelAddr Config.disco.LCD_FB_START_ADDRESS 160 240) = 1 ∧
    (main_blit Config.disco Env.allOK
        (State.reset imageOneElsewhereZero)).state.mem.cell
      (pixelAddr Config.disco.LCD_FB_START_ADDRESS 0 0) = 0 :=
  have h := main_blit_end_to_end Config.disco Env.allOK (State.reset imageOneElsewhereZero)
    (by simp only [Config.disco]; omega)
    (by
      intro k p hk hp
      simp only [Config.disco]
      omega)
    rfl rfl rfl rfl
  ⟨(h.1 160 240 (by omega) (by omega)).trans
      (by simp [State.reset, imageOneElsewhereZero, Config.disco]),
    (h.1 0 0 (by omega) (by omega)).trans
      (by simp [State.reset, imageOneElsewhereZero, Config.disco, pixelAddr])⟩

/-- C4.  `HAL_DSI_EndOfRefreshCallback` changes nothing but `pending_buffer`;
it sets a non-idle flag (any value `≥ 0`) to -1 and leaves an idle flag (-1)
as it is; it is idempotent, and after it the flag is negative. -/
theorem HAL_DSI_EndOfRefreshCallback_spec (s : State) :
    (HAL_DSI_EndOfRefreshCallback s).pending_buffer =
      (if 0 ≤ s.pending_buffer then -1 else s.pending_buffer) ∧
    HAL_DSI_EndOfRefreshCallback s =
      { s with pending_buffer := (HAL_DSI_EndOfRefreshCallback s).pending_buffer } ∧
    (∀ p : Nat, (HAL_DSI_EndOfRefreshCallback { s with pending_buffer := (p : Int) }).pending_buffer
      = -1) ∧
    HAL_DSI_EndOfRefreshCallback { s with pending_buffer := -1 } =
      { s with pending_buffer := -1 } ∧
    HAL_DSI_EndOfRefreshCallback (HAL_DSI_EndOfRefreshCallback s) =
      HAL_DSI_EndOfRefreshCallback s ∧
    (HAL_DSI_EndOfRefreshCallback s).pending_buffer < 0 := by
  unfold HAL_DSI_EndOfRefreshCallback
  refine ⟨?_, ?_, ?_, ?_, ?_, ?_⟩
  · split <;> simp_all
  · split <;> rfl
  · intro p
    simp
  · simp
  · by_cases h : s.pending_buffer ≥ 0 <;> simp [h]
  · by_cases h : s.pending_buffer ≥ 0
    · simp [h]
    · simp only [h, if_false]
      omega

/-! ## Claims about the bring-up (`LCD_Init`, `LTDC_Init`) and the program -/

/-- C6.  `LTDC_Init` programs, and passes to `HAL_LTDC_Init`, the totals
`HSYNC + HBP + HACT + HFP = 803` and `VSYNC + VBP + VACT + VFP = 483` and the
accumulated values as the truncated sums, from the constants 1/1/1 and 800
(horizontal), 1/1/1 and 480 (vertical); on each axis
sync < accumulated back porch < accumulated active < total. -/
theorem LTDC_Init_geometry (e : Env) (s : State) :
    ((HSYNC, HBP, HFP, HACT) = (1, 1, 1, 800) ∧ (VSYNC, VBP, VFP, VACT) = (1, 1, 1, 480)) ∧
    ((LTDC_Init e s).state.hltdc_eval.Init.TotalWidth = HSYNC + HBP + HACT + HFP ∧
      (LTDC_Init e s).state.hltdc_eval.Init.TotalWidth = 803) ∧
    ((LTDC_Init e s).state.hltdc_eval.Init.TotalHeigh = VSYNC + VBP + VACT + VFP ∧
      (LTDC_Init e s).state.hltdc_eval.Init.TotalHeigh = 483) ∧
    ((LTDC_Init e s).state.hltdc_eval.Init.HorizontalSync = HSYNC ∧
      (LTDC_Init e s).state.hltdc_eval.Init.AccumulatedHBP = HSYNC + HBP ∧
      (LTDC_Init e s).state.hltdc_eval.Init.AccumulatedActiveW = HSYNC + HBP + HACT) ∧
    ((LTDC_Init e s).state.hltdc_eval.Init.VerticalSync = VSYNC ∧
      (LTDC_Init e s).state.hltdc_eval.Init.AccumulatedVBP = VSYNC + VBP ∧
      (LTDC_Init e s).state.hltdc_eval.Init.AccumulatedActiveH = VSYNC + VBP + VACT) ∧
    ((LTDC_Init e s).state.hltdc_eval.Init.HorizontalSync <
        (LTDC_Init e s).state.hltdc_eval.Init.AccumulatedHBP ∧
      (LTDC_Init e s).state.hltdc_eval.Init.AccumulatedHBP <
        (LTDC_Init e s).state.hltdc_eval.Init.AccumulatedActiveW ∧
      (LTDC_Init e s).state.hltdc_eval.Init.AccumulatedActiveW <
        (LTDC_Init e s).state.hltdc_eval.Init.TotalWidth) ∧
    ((LTDC_Init e s).state.hltdc_eval.Init.VerticalSync <
        (LTDC_Init e s).state.hltdc_eval.Init.AccumulatedVBP ∧
      (LTDC_Init e s).state.hltdc_eval.Init.AccumulatedVBP <
        (LTDC_Init e s).state.hltdc_eval.Init.AccumulatedActiveH ∧
      (LTDC_Init e s).state.hltdc_eval.Init.AccumulatedActiveH <
        (LTDC_Init e s).state.hltdc_eval.Init.TotalHeigh) ∧
    (LTDC_Init e s).state.trace.getLast? =
      some ⟨.HAL_LTDC_Init (LTDC_Init e s).state.hltdc_eval.Init, s.pending_buffer⟩ := by
  rw [LTDC_Init_eq]
  simp only [Run.state, LTDC_Init_values]
  refine ⟨by decide, by decide, by decide, by decide, by decide, by decide, by decide, ?_⟩
  simp

/-- C9.  Whatever the HAL returns, `LCD_Init` returns `LCD_OK` having made,
after its three board / clock calls, exactly the link bring-up calls of
`LCD_Init_link_steps`, in that order, ending with the first refresh; the
low-power configuration of step 5 enables all 11 categories and that of
step 10 disables exactly those 11. -/
theorem LCD_Init_bringup_order (cfg : Config) (e : Env) (s : State) :
    (LCD_Init cfg e s).halted = false ∧
    (LCD_Init cfg e s).state.trace.map Event.call =
      s.trace.map Event.call ++ LCD_Init_preamble ++ LCD_Init_link_steps cfg ∧
    (LCD_Init_link_steps cfg).length = 12 ∧
    (LCD_Init_link_steps cfg).getLast? = some .HAL_DSI_Refresh ∧
    LPCategory.all.length = 11 ∧
    LPCmd_enable.categories .ENABLE = LPCategory.all ∧
    LPCmd_enable.categories .DISABLE = [] ∧
    (LPCmd_disable LPCmd_enable).categories .DISABLE = LPCmd_enable.categories .ENABLE ∧
    (LPCmd_disable LPCmd_enable).categories .ENABLE = [] := by
  rw [LCD_Init_eq]
  refine ⟨rfl, ?_, by rfl, by rfl, by decide, by decide, by decide, by decide, by decide⟩
  simp [Run.state, LCD_Init_calls, List.map_append, Function.comp_def]

/-- C3, on the code: whatever its calls return, `LCD_Init` returns `LCD_OK`;
so when the three clock configuration calls succeed, then whatever the calls
of `LCD_Init` and `LTDC_Init` return, `main` does not halt and does not
light the LED, and it calls `HAL_DSI_Refresh` twice. -/
theorem main_init_failure_not_fatal (cfg : Config) (e : Env) (s : State)
    (h1 : e.status (s.trace.length + 1) = .HAL_OK)
    (h2 : e.status (s.trace.length + 2) = .HAL_OK)
    (h3 : e.status (s.trace.length + 3) = .HAL_OK) :
    (∀ s0, LCD_Init cfg e s0 = .ret .LCD_OK (LCD_Init cfg e s0).state) ∧
    (main cfg e s).halted = false ∧
    (main cfg e s).state.led3 = s.led3 ∧
    (((main cfg e s).state.trace.drop s.trace.length).map Event.call).filter
        (fun c => c = .HAL_DSI_Refresh) =
      [.HAL_DSI_Refresh, .HAL_DSI_Refresh] := by
  rw [main_eq cfg e s h1 h2 h3]
  simp only [Run.halted, Run.state, List.append_assoc, List.drop_left, List.map_append,
    List.map_map, Function.comp_def, List.map_cons, List.map_nil, List.filter_append]
  refine ⟨?_, trivial, trivial, ?_⟩
  · intro s0
    rw [LCD_Init_eq]
  · simp [main_calls_filter]

/-- The run in which `HAL_DSI_Init` (call number 9) returns `HAL_ERROR`: no
halt, LED off, two refreshes. -/
theorem main_init_failure_not_fatal_witness :
    (Env.failAt 9 .HAL_ERROR).status 9 = .HAL_ERROR ∧
    ((main Config.disco (Env.failAt 9 .HAL_ERROR)
        (State.reset imageOneElsewhereZero)).state.trace.map Event.call)[9]? =
      some (.HAL_DSI_Init { NumberOfLanes := .DSI_TWO_DATA_LANES, TXEscapeCkdiv := 4 }
        { PLLNDIV := 125, PLLIDF := .DSI_PLL_IN_DIV2, PLLODF := .DSI_PLL_OUT_DIV1 }) ∧
    (main Config.disco (Env.failAt 9 .HAL_ERROR) (State.reset imageOneElsewhereZero)).halted
      = false ∧
    (main Config.disco (Env.failAt 9 .HAL_ERROR) (State.reset imageOneElsewhereZero)).state.led3
      = false ∧
    (((main Config.disco (Env.failAt 9 .HAL_ERROR)
        (State.reset imageOneElsewhereZero)).state.trace.drop 0).map Event.call).filter
        (fun c => c = .HAL_DSI_Refresh) =
      [.HAL_DSI_Refresh, .HAL_DSI_Refresh] :=
  have h := main_init_failure_not_fatal Config.disco (Env.failAt 9 .HAL_ERROR)
    (State.reset imageOneElsewhereZero) rfl rfl rfl
  ⟨rfl,
    by
      rw [main_eq Config.disco (Env.failAt 9 .HAL_ERROR) (State.reset imageOneElsewhereZero)
        rfl rfl rfl]
      rfl,
    h.2.1, h.2.2.1, h.2.2.2⟩

/-- C5, as stated, fails: in the run where every call returns `HAL_OK`, `main`
requests a refresh (the one at the end of `LCD_Init`) while `pending_buffer`
is -1, not a non-idle value. -/
theorem first_refresh_requested_while_idle :
    ∃ ev ∈ (main Config.disco Env.allOK (State.reset imageOneElsewhereZero)).state.trace,
      ev.call = .HAL_DSI_Refresh ∧ ¬ (0 ≤ ev.pending) := by
  rw [main_eq Config.disco Env.allOK (State.reset imageOneElsewhereZero) rfl rfl rfl]
  refine ⟨⟨.HAL_DSI_Refresh, -1⟩, ?_, rfl, by decide⟩
  simp [Run.state, State.reset, main_calls, LCD_Init_calls, LCD_Init_link_steps]

/-- C5, amended.  From a state with `pending_buffer = -1` (its initial value),
when the three clock configuration calls succeed, `main` requests exactly two
refreshes: the one in `main`, requested with `pending_buffer` set to 0 by the
statement before it, and before that the first one, at the end of `LCD_Init`,
requested with `pending_buffer` still -1.  No number of completion callbacks
run from that initial state makes the flag non-idle. -/
theorem main_refresh_pending (cfg : Config) (e : Env) (s : State)
    (hp : s.pending_buffer = -1)
    (h1 : e.status (s.trace.length + 1) = .HAL_OK)
    (h2 : e.status (s.trace.length + 2) = .HAL_OK)
    (h3 : e.status (s.trace.length + 3) = .HAL_OK) :
    ((main cfg e s).state.trace.drop s.trace.length).filter
        (fun ev => ev.call = .HAL_DSI_Refresh) =
      [⟨.HAL_DSI_Refresh, -1⟩, ⟨.HAL_DSI_Refresh, 0⟩] ∧
    (∀ k, (HAL_DSI_EndOfRefreshCallback^[k] s).pending_buffer = -1) := by
  constructor
  · rw [main_eq cfg e s h1 h2 h3]
    simp only [Run.state, List.append_assoc, List.drop_left, List.filter_append,
      List.filter_map, Function.comp_def, main_calls_filter, hp]
    rfl
  · intro k
    induction k with
    | zero => exact hp
    | succ k ih =>
      rw [Function.iterate_succ_apply']
      unfold HAL_DSI_EndOfRefreshCallback
      split
      · rfl
      · exact ih

/-- The run in which every call returns `HAL_OK`. -/
theorem main_refresh_pending_witness :
    (State.reset imageOneElsewhereZero).pending_buffer = -1 ∧
    ((main Config.disco Env.allOK (State.reset imageOneElsewhereZero)).state.trace.drop 0).filter
        (fun ev => ev.call = .HAL_DSI_Refresh) =
      [⟨.HAL_DSI_Refresh, -1⟩, ⟨.HAL_DSI_Refresh, 0⟩] :=
  ⟨rfl, (main_refresh_pending Config.disco Env.allOK (State.reset imageOneElsewhereZero)
    rfl rfl rfl rfl).1⟩

end TempDisplay
